import Mathlib

/-!
# Kedge: populating native containers

A shallow embedding of `pkg/transform/kubernetes/populators.go`:

* `populateProbes` unifies the shorthand `health` probe into the liveness and
  readiness probes,
* `convertEnvFromToEnvs` expands every `envFrom` directive into explicit
  environment bindings,
* `populateEnvFrom` merges the expanded bindings with the declared ones,
* `populateContainers` runs both stages over a batch.

Conventions of the embedding.

* A Go pointer `*T` is an `Option T` (`nil` is `none`).
* A Go slice is a `List`; the `nil` slice and the empty slice are both `[]`.
* A Go `map[string]V` is the list of its entries in the order in which one
  `range` loop enumerates them. That order is arbitrary, so statements quantify
  over every such list; the keys of a map are distinct (`GoMap.WF`).
* A Go function returning `(T, error)` returns a pair `T × Option GoError`, so
  that the value handed back next to an error is part of the model.
* Struct embedding is `extends`; the embedded `c.Container` of a
  `spec.Container` is `c.toContainer`.
-/

/-- A Go `map[string]V`: its entries, in the order a `range` loop visits them. -/
abbrev GoMap (V : Type) := List (String × V)

/-- The keys of a Go map are pairwise distinct. -/
def GoMap.WF {V : Type} (m : GoMap V) : Prop := (m.map Prod.fst).Nodup

instance {V : Type} (m : GoMap V) : Decidable (GoMap.WF m) := by
  unfold GoMap.WF; infer_instance

/-- The errors built in `populators.go`, one constructor per construction site,
carrying the arguments given to the format string. -/
inductive GoError where
  /-- The error of `populateProbes`:
  `fmt.Errorf("cannot define field 'health' and 'livenessProbe' or 'readinessProbe' together")`. -/
  | healthWithProbes : GoError
  /-- The error of `searchConfigMap`: `fmt.Errorf("configMap %q not found", name)`. -/
  | configMapNotFound (name : String) : GoError
  /-- The error of `getSecretDataKeys`: `fmt.Errorf("secret %q not found", name)`. -/
  | secretNotFound (name : String) : GoError
  /-- In `convertEnvFromToEnvs`: `errors.Wrapf(err, "envFrom[%d].configMapRef.name", ei)`. -/
  | wrapConfigMapRef (cause : GoError) (ei : Nat) : GoError
  /-- In `convertEnvFromToEnvs`: `errors.Wrapf(err, "envFrom[%d].secretRef.name", ei)`. -/
  | wrapSecretRef (cause : GoError) (ei : Nat) : GoError
  /-- In `populateContainers`:
  `errors.Wrapf(err, "error converting 'health' to 'probes', app.containers[%d]", cn)`. -/
  | wrapHealthToProbes (cause : GoError) (cn : Nat) : GoError
  /-- In `populateContainers`:
  `fmt.Errorf("error converting 'envFrom' to 'envs', app.containers[%d].%s", cn, err.Error())`. -/
  | envFromToEnvs (cn : Nat) (cause : GoError) : GoError
deriving DecidableEq, Repr

namespace api_v1

/-- The struct `api_v1.LocalObjectReference`. -/
structure LocalObjectReference where
  Name : String
deriving DecidableEq, Repr

/-- The struct `api_v1.ConfigMapEnvSource`, the target of `EnvFromSource.ConfigMapRef`. -/
structure ConfigMapEnvSource extends LocalObjectReference where
  Optional : Option Bool := none
deriving DecidableEq, Repr

/-- The struct `api_v1.SecretEnvSource`, the target of `EnvFromSource.SecretRef`. -/
structure SecretEnvSource extends LocalObjectReference where
  Optional : Option Bool := none
deriving DecidableEq, Repr

/-- The struct `api_v1.EnvFromSource`: one import directive. -/
structure EnvFromSource where
  Prefix : String := ""
  ConfigMapRef : Option ConfigMapEnvSource := none
  SecretRef : Option SecretEnvSource := none
deriving DecidableEq, Repr

/-- The struct `api_v1.ObjectFieldSelector`. -/
structure ObjectFieldSelector where
  APIVersion : String := ""
  FieldPath : String := ""
deriving DecidableEq, Repr

/-- The struct `api_v1.ResourceFieldSelector`; the quantity `Divisor` is kept as text. -/
structure ResourceFieldSelector where
  ContainerName : String := ""
  Resource : String := ""
  Divisor : String := ""
deriving DecidableEq, Repr

/-- The struct `api_v1.ConfigMapKeySelector`. -/
structure ConfigMapKeySelector extends LocalObjectReference where
  Key : String
  Optional : Option Bool := none
deriving DecidableEq, Repr

/-- The struct `api_v1.SecretKeySelector`. -/
structure SecretKeySelector extends LocalObjectReference where
  Key : String
  Optional : Option Bool := none
deriving DecidableEq, Repr

/-- The struct `api_v1.EnvVarSource`. -/
structure EnvVarSource where
  FieldRef : Option ObjectFieldSelector := none
  ResourceFieldRef : Option ResourceFieldSelector := none
  ConfigMapKeyRef : Option ConfigMapKeySelector := none
  SecretKeyRef : Option SecretKeySelector := none
deriving DecidableEq, Repr

/-- The struct `api_v1.EnvVar`: one environment binding. -/
structure EnvVar where
  Name : String
  Value : String := ""
  ValueFrom : Option EnvVarSource := none
deriving DecidableEq, Repr

/-- The struct `api_v1.Container`. `P` is the type `api_v1.Probe`, of which the
code only tests and copies pointers; `R` bundles the fields the code neither
reads nor writes (name, image, command, ports, ...). -/
structure Container (P R : Type) where
  EnvFrom : List EnvFromSource := []
  Env : List EnvVar := []
  LivenessProbe : Option P := none
  ReadinessProbe : Option P := none
  Rest : R
deriving DecidableEq, Repr

end api_v1

namespace spec

/-- The struct `spec.Container`: the native container, embedded, and the
shorthand `health` probe. -/
structure Container (P R : Type) extends api_v1.Container P R where
  Health : Option P := none
deriving DecidableEq, Repr

/-- The struct `spec.ConfigMapMod`, with the two fields the code reads. -/
structure ConfigMapMod where
  Name : String := ""
  Data : GoMap String := []
deriving DecidableEq, Repr

/-- The struct `spec.SecretMod`, with the three fields the code reads; `Data`
and `StringData` are promoted from the embedded `api_v1.Secret`. -/
structure SecretMod where
  Name : String := ""
  Data : GoMap (List UInt8) := []
  StringData : GoMap String := []
deriving DecidableEq, Repr

end spec

namespace kubernetes

open api_v1

/-- The function `populateProbes` (populators.go, lines 31-43). -/
def populateProbes {P R : Type} (c : spec.Container P R) :
    spec.Container P R × Option GoError :=
  if c.Health.isSome && (c.ReadinessProbe.isSome || c.LivenessProbe.isSome) then
    (c, some GoError.healthWithProbes)
  else if c.Health.isSome then
    ({ c with LivenessProbe := c.Health, ReadinessProbe := c.Health, Health := none }, none)
  else
    (c, none)

/-- The function `searchConfigMap` (populators.go, lines 45-52): the first
element of `cms` whose `Name` is `name`, or the zero `ConfigMapMod` and an error. -/
def searchConfigMap (cms : List spec.ConfigMapMod) (name : String) :
    spec.ConfigMapMod × Option GoError :=
  match cms with
  | [] => ({ Name := "", Data := [] }, some (GoError.configMapNotFound name))
  | cm :: rest => if cm.Name = name then (cm, none) else searchConfigMap rest name

/-- The function `getSecretDataKeys` (populators.go, lines 54-68): for the first
secret whose `Name` is `name`, the keys of `Data` followed by the keys of
`StringData`, each in enumeration order; or no keys and an error. -/
def getSecretDataKeys (secrets : List spec.SecretMod) (name : String) :
    List String × Option GoError :=
  match secrets with
  | [] => ([], some (GoError.secretNotFound name))
  | secret :: rest =>
    if secret.Name = name then
      let dataKeys : List String := []
      let dataKeys := secret.Data.foldl (fun d kv => d ++ [kv.1]) dataKeys
      let dataKeys := secret.StringData.foldl (fun d kv => d ++ [kv.1]) dataKeys
      (dataKeys, none)
    else getSecretDataKeys rest name

/-- The function `getMapKeys` (populators.go, lines 70-76): the keys of `m` in
enumeration order. -/
def getMapKeys (m : GoMap String) : List String :=
  m.foldl (fun d kv => d ++ [kv.1]) []

/-- Go's `sort.Strings`: the list in increasing order. Go compares strings
byte by byte, which on UTF-8 text is the order of the code points compared
one by one, the order of `String`. -/
def sortStrings (l : List String) : List String :=
  l.insertionSort (fun a b => a.toList ≤ b.toList)

/-- The first half of the loop body of `convertEnvFromToEnvs` (populators.go,
lines 83-108), for the directive `e` at index `ei`: the bindings of the
referenced config map are appended to `envs`, or `nil` and an error returned. -/
def convertEnvFromToEnvs.configMapRef (cms : List spec.ConfigMapMod) (ei : Nat)
    (e : EnvFromSource) (envs : List EnvVar) : List EnvVar × Option GoError :=
  match e.ConfigMapRef with
  | none => (envs, none)
  | some ref =>
    let cmName := ref.Name
    match searchConfigMap cms cmName with
    | (_, some err) => ([], some (GoError.wrapConfigMapRef err ei))
    | (cm, none) =>
      let configMapKeys := sortStrings (getMapKeys cm.Data)
      (envs ++ configMapKeys.map (fun key =>
        { Name := key
          ValueFrom := some
            { ConfigMapKeyRef := some { Name := cmName, Key := key } } }), none)

/-- The second half of the loop body of `convertEnvFromToEnvs` (populators.go,
lines 110-130), for the directive `e` at index `ei`: the bindings of the
referenced secret are appended to `envs`, or `nil` and an error returned. -/
def convertEnvFromToEnvs.secretRef (secrets : List spec.SecretMod) (ei : Nat)
    (e : EnvFromSource) (envs : List EnvVar) : List EnvVar × Option GoError :=
  match e.SecretRef with
  | none => (envs, none)
  | some ref =>
    match getSecretDataKeys secrets ref.Name with
    | (_, some err) => ([], some (GoError.wrapSecretRef err ei))
    | (rootSecretDataKeys, none) =>
      let rootSecretDataKeys := sortStrings rootSecretDataKeys
      (envs ++ rootSecretDataKeys.map (fun secretDataKey =>
        { Name := secretDataKey
          ValueFrom := some
            { SecretKeyRef := some { Name := ref.Name, Key := secretDataKey } } }), none)

/-- The loop of `convertEnvFromToEnvs` (populators.go, lines 82-132) from
index `ei` on, `envs` being the bindings collected so far. -/
def convertEnvFromToEnvs.loop (cms : List spec.ConfigMapMod) (secrets : List spec.SecretMod) :
    Nat → List EnvFromSource → List EnvVar → List EnvVar × Option GoError
  | _, [], envs => (envs, none)
  | ei, e :: rest, envs =>
    match convertEnvFromToEnvs.configMapRef cms ei e envs with
    | (r, some err) => (r, some err)
    | (envs, none) =>
      match convertEnvFromToEnvs.secretRef secrets ei e envs with
      | (r, some err) => (r, some err)
      | (envs, none) => convertEnvFromToEnvs.loop cms secrets (ei + 1) rest envs

/-- The function `convertEnvFromToEnvs` (populators.go, lines 78-133). -/
def convertEnvFromToEnvs (envFrom : List EnvFromSource) (cms : List spec.ConfigMapMod)
    (secrets : List spec.SecretMod) : List EnvVar × Option GoError :=
  convertEnvFromToEnvs.loop cms secrets 0 envFrom []

/-- The function `populateEnvFrom` (populators.go, lines 135-153). -/
def populateEnvFrom {P R : Type} (c : spec.Container P R) (cms : List spec.ConfigMapMod)
    (secrets : List spec.SecretMod) : spec.Container P R × Option GoError :=
  match convertEnvFromToEnvs c.EnvFrom cms secrets with
  | (_, some err) => (c, some err)
  | (envs, none) => ({ c with EnvFrom := [], Env := envs ++ c.Env }, none)

/-- The loop of `populateContainers` (populators.go, lines 158-174) from index
`cn` on, `cnts` being the native containers collected so far. -/
def populateContainers.loop {P R : Type} (cms : List spec.ConfigMapMod)
    (secrets : List spec.SecretMod) :
    Nat → List (spec.Container P R) → List (api_v1.Container P R) →
      List (api_v1.Container P R) × Option GoError
  | _, [], cnts => (cnts, none)
  | cn, c :: rest, cnts =>
    match populateProbes c with
    | (_, some err) => (cnts, some (GoError.wrapHealthToProbes err cn))
    | (c, none) =>
      match populateEnvFrom c cms secrets with
      | (_, some err) => (cnts, some (GoError.envFromToEnvs cn err))
      | (c, none) => populateContainers.loop cms secrets (cn + 1) rest (cnts ++ [c.toContainer])

/-- The function `populateContainers` (populators.go, lines 155-179); the debug
log of the result, which returns nothing, is left out. -/
def populateContainers {P R : Type} (containers : List (spec.Container P R))
    (cms : List spec.ConfigMapMod) (secrets : List spec.SecretMod) :
    List (api_v1.Container P R) × Option GoError :=
  populateContainers.loop cms secrets 0 containers []

/-! ## Auxiliary lemmas -/

theorem foldl_keys {V : Type} (m : GoMap V) (acc : List String) :
    m.foldl (fun d kv => d ++ [kv.1]) acc = acc ++ m.map Prod.fst := by
  induction m generalizing acc with
  | nil => simp
  | cons kv m ih => simp [ih]

theorem getMapKeys_eq (m : GoMap String) : getMapKeys m = m.map Prod.fst := by
  simp [getMapKeys, foldl_keys]

theorem sortStrings_perm (l : List String) : (sortStrings l).Perm l :=
  List.perm_insertionSort _ l

theorem sortStrings_sorted (l : List String) :
    (sortStrings l).Sorted (fun a b => a ≤ b) := by
  have total : IsTotal String (fun a b => a.toList ≤ b.toList) :=
    ⟨fun a b => by
      simp only [← String.le_iff_toList_le]
      exact le_total a b⟩
  have trans : IsTrans String (fun a b => a.toList ≤ b.toList) :=
    ⟨fun a b c hab hbc => by
      simp only [← String.le_iff_toList_le] at *
      exact le_trans hab hbc⟩
  have h := List.sorted_insertionSort (fun a b : String => a.toList ≤ b.toList) l
  exact List.Pairwise.imp (fun hab => String.le_iff_toList_le.mpr hab) h

theorem searchConfigMap_find (cms : List spec.ConfigMapMod) (name : String) (cm : spec.ConfigMapMod)
    (h : cms.find? (fun x => decide (x.Name = name)) = some cm) :
    searchConfigMap cms name = (cm, none) := by
  induction cms with
  | nil => simp at h
  | cons x rest ih =>
    by_cases hx : x.Name = name
    · simp [List.find?, hx] at h
      subst h
      simp [searchConfigMap, hx]
    · simp [List.find?, hx] at h
      simp [searchConfigMap, hx, ih h]

theorem searchConfigMap_error_iff (cms : List spec.ConfigMapMod) (name : String) :
    (searchConfigMap cms name).2 ≠ none ↔ ∀ cm ∈ cms, cm.Name ≠ name := by
  induction cms with
  | nil => simp [searchConfigMap]
  | cons x rest ih =>
    by_cases hx : x.Name = name
    · simp [searchConfigMap, hx]
    · simp [searchConfigMap, hx, ih]

theorem getSecretDataKeys_find (secrets : List spec.SecretMod) (name : String) (s : spec.SecretMod)
    (h : secrets.find? (fun x => decide (x.Name = name)) = some s) :
    getSecretDataKeys secrets name =
      (s.Data.map Prod.fst ++ s.StringData.map Prod.fst, none) := by
  induction secrets with
  | nil => simp at h
  | cons x rest ih =>
    by_cases hx : x.Name = name
    · simp [List.find?, hx] at h
      subst h
      simp [getSecretDataKeys, hx, foldl_keys]
    · simp [List.find?, hx] at h
      simp [getSecretDataKeys, hx, ih h]

theorem getSecretDataKeys_error_iff (secrets : List spec.SecretMod) (name : String) :
    (getSecretDataKeys secrets name).2 ≠ none ↔ ∀ s ∈ secrets, s.Name ≠ name := by
  induction secrets with
  | nil => simp [getSecretDataKeys]
  | cons x rest ih =>
    by_cases hx : x.Name = name
    · simp [getSecretDataKeys, hx]
    · simp [getSecretDataKeys, hx, ih]

theorem configMapRef_error_iff (cms : List spec.ConfigMapMod) (ei : Nat) (e : EnvFromSource)
    (envs : List EnvVar) :
    (convertEnvFromToEnvs.configMapRef cms ei e envs).2 ≠ none ↔
      ∃ r, e.ConfigMapRef = some r ∧ ∀ cm ∈ cms, cm.Name ≠ r.Name := by
  unfold convertEnvFromToEnvs.configMapRef
  cases hc : e.ConfigMapRef with
  | none => simp
  | some ref =>
    have h := searchConfigMap_error_iff cms ref.Name
    rcases hs : searchConfigMap cms ref.Name with ⟨cm, _ | err⟩
    · rw [hs] at h
      simpa [hs] using h
    · rw [hs] at h
      simpa [hs] using h

theorem configMapRef_error_fst (cms : List spec.ConfigMapMod) (ei : Nat) (e : EnvFromSource)
    (envs : List EnvVar) (h : (convertEnvFromToEnvs.configMapRef cms ei e envs).2 ≠ none) :
    (convertEnvFromToEnvs.configMapRef cms ei e envs).1 = [] := by
  unfold convertEnvFromToEnvs.configMapRef at h ⊢
  cases hc : e.ConfigMapRef with
  | none => simp [hc] at h
  | some ref =>
    rcases hs : searchConfigMap cms ref.Name with ⟨cm, _ | err⟩
    · simp [hc, hs] at h
    · simp [hs]

theorem secretRef_error_iff (secrets : List spec.SecretMod) (ei : Nat) (e : EnvFromSource)
    (envs : List EnvVar) :
    (convertEnvFromToEnvs.secretRef secrets ei e envs).2 ≠ none ↔
      ∃ r, e.SecretRef = some r ∧ ∀ s ∈ secrets, s.Name ≠ r.Name := by
  unfold convertEnvFromToEnvs.secretRef
  cases hc : e.SecretRef with
  | none => simp
  | some ref =>
    have h := getSecretDataKeys_error_iff secrets ref.Name
    rcases hs : getSecretDataKeys secrets ref.Name with ⟨ks, _ | err⟩
    · rw [hs] at h
      simpa [hs] using h
    · rw [hs] at h
      simpa [hs] using h

theorem secretRef_error_fst (secrets : List spec.SecretMod) (ei : Nat) (e : EnvFromSource)
    (envs : List EnvVar) (h : (convertEnvFromToEnvs.secretRef secrets ei e envs).2 ≠ none) :
    (convertEnvFromToEnvs.secretRef secrets ei e envs).1 = [] := by
  unfold convertEnvFromToEnvs.secretRef at h ⊢
  cases hc : e.SecretRef with
  | none => simp [hc] at h
  | some ref =>
    rcases hs : getSecretDataKeys secrets ref.Name with ⟨ks, _ | err⟩
    · simp [hc, hs] at h
    · simp [hs]

theorem loop_error_iff (cms : List spec.ConfigMapMod) (secrets : List spec.SecretMod)
    (envFrom : List EnvFromSource) (ei : Nat) (envs : List EnvVar) :
    (convertEnvFromToEnvs.loop cms secrets ei envFrom envs).2 ≠ none ↔
      ∃ e ∈ envFrom,
        (∃ r, e.ConfigMapRef = some r ∧ ∀ cm ∈ cms, cm.Name ≠ r.Name) ∨
        (∃ r, e.SecretRef = some r ∧ ∀ s ∈ secrets, s.Name ≠ r.Name) := by
  induction envFrom generalizing ei envs with
  | nil => simp [convertEnvFromToEnvs.loop]
  | cons e rest ih =>
    have hc := configMapRef_error_iff cms ei e envs
    rcases hcm : convertEnvFromToEnvs.configMapRef cms ei e envs with ⟨r1, _ | err1⟩
    · rw [hcm] at hc
      have hs := secretRef_error_iff secrets ei e r1
      rcases hsm : convertEnvFromToEnvs.secretRef secrets ei e r1 with ⟨r2, _ | err2⟩
      · rw [hsm] at hs
        simp only [convertEnvFromToEnvs.loop, hcm, hsm, ih, List.mem_cons, exists_eq_or_imp]
        simp only [ne_eq, not_true_eq_false, false_iff] at hc hs
        simp [hc, hs]
      · rw [hsm] at hs
        simp only [convertEnvFromToEnvs.loop, hcm, hsm, List.mem_cons, exists_eq_or_imp]
        simp only [ne_eq, reduceCtorEq, not_false_eq_true, true_iff] at hs
        simp [hs]
    · rw [hcm] at hc
      simp only [convertEnvFromToEnvs.loop, hcm, List.mem_cons, exists_eq_or_imp]
      simp only [ne_eq, reduceCtorEq, not_false_eq_true, true_iff] at hc
      simp [hc]

theorem loop_error_fst (cms : List spec.ConfigMapMod) (secrets : List spec.SecretMod)
    (envFrom : List EnvFromSource) (ei : Nat) (envs : List EnvVar)
    (h : (convertEnvFromToEnvs.loop cms secrets ei envFrom envs).2 ≠ none) :
    (convertEnvFromToEnvs.loop cms secrets ei envFrom envs).1 = [] := by
  induction envFrom generalizing ei envs with
  | nil => simp [convertEnvFromToEnvs.loop] at h
  | cons e rest ih =>
    have hc := configMapRef_error_fst cms ei e envs
    rcases hcm : convertEnvFromToEnvs.configMapRef cms ei e envs with ⟨r1, _ | err1⟩
    · have hs := secretRef_error_fst secrets ei e r1
      rcases hsm : convertEnvFromToEnvs.secretRef secrets ei e r1 with ⟨r2, _ | err2⟩
      · simp only [convertEnvFromToEnvs.loop, hcm, hsm] at h ⊢
        exact ih _ _ h
      · rw [hsm] at hs
        simpa [convertEnvFromToEnvs.loop, hcm, hsm] using hs
    · rw [hcm] at hc
      simpa [convertEnvFromToEnvs.loop, hcm] using hc

theorem configMapRef_none (cms : List spec.ConfigMapMod) (ei : Nat) (e : EnvFromSource)
    (envs : List EnvVar) (hc : e.ConfigMapRef = none) :
    convertEnvFromToEnvs.configMapRef cms ei e envs = (envs, none) := by
  simp [convertEnvFromToEnvs.configMapRef, hc]

theorem configMapRef_find (cms : List spec.ConfigMapMod) (ei : Nat) (e : EnvFromSource)
    (envs : List EnvVar) (ref : ConfigMapEnvSource) (cm : spec.ConfigMapMod)
    (hc : e.ConfigMapRef = some ref)
    (hfind : cms.find? (fun x => decide (x.Name = ref.Name)) = some cm) :
    convertEnvFromToEnvs.configMapRef cms ei e envs =
      (envs ++ (sortStrings (cm.Data.map Prod.fst)).map (fun key =>
        ({ Name := key, Value := "",
           ValueFrom := some
            { FieldRef := none, ResourceFieldRef := none,
              ConfigMapKeyRef := some { Name := ref.Name, Key := key, Optional := none },
              SecretKeyRef := none } } : EnvVar)), none) := by
  simp [convertEnvFromToEnvs.configMapRef, hc, searchConfigMap_find cms ref.Name cm hfind,
    getMapKeys_eq]

theorem secretRef_none (secrets : List spec.SecretMod) (ei : Nat) (e : EnvFromSource)
    (envs : List EnvVar) (hs : e.SecretRef = none) :
    convertEnvFromToEnvs.secretRef secrets ei e envs = (envs, none) := by
  simp [convertEnvFromToEnvs.secretRef, hs]

theorem secretRef_find (secrets : List spec.SecretMod) (ei : Nat) (e : EnvFromSource)
    (envs : List EnvVar) (ref : SecretEnvSource) (s : spec.SecretMod)
    (hs : e.SecretRef = some ref)
    (hfind : secrets.find? (fun x => decide (x.Name = ref.Name)) = some s) :
    convertEnvFromToEnvs.secretRef secrets ei e envs =
      (envs ++ (sortStrings (s.Data.map Prod.fst ++ s.StringData.map Prod.fst)).map (fun key =>
        ({ Name := key, Value := "",
           ValueFrom := some
            { FieldRef := none, ResourceFieldRef := none, ConfigMapKeyRef := none,
              SecretKeyRef := some { Name := ref.Name, Key := key, Optional := none } } } :
          EnvVar)), none) := by
  simp [convertEnvFromToEnvs.secretRef, hs, getSecretDataKeys_find secrets ref.Name s hfind]

theorem populateEnvFrom_ok_envFrom {P R : Type} (c : spec.Container P R)
    (cms : List spec.ConfigMapMod) (secrets : List spec.SecretMod)
    (h : (populateEnvFrom c cms secrets).2 = none) :
    (populateEnvFrom c cms secrets).1.EnvFrom = [] := by
  unfold populateEnvFrom at h ⊢
  rcases hconv : convertEnvFromToEnvs c.EnvFrom cms secrets with ⟨envs, _ | err⟩
  · simp
  · simp [hconv] at h

theorem populateContainers_loop_ok {P R : Type} (cms : List spec.ConfigMapMod)
    (secrets : List spec.SecretMod) (l : List (spec.Container P R)) (cn : Nat)
    (cnts : List (api_v1.Container P R)) :
    ((populateContainers.loop cms secrets cn l cnts).2 = none ↔
      ∀ c ∈ l, (populateProbes c).2 = none ∧
        (populateEnvFrom (populateProbes c).1 cms secrets).2 = none) ∧
    ((populateContainers.loop cms secrets cn l cnts).2 = none →
      (populateContainers.loop cms secrets cn l cnts).1 =
        cnts ++ l.map (fun c => (populateEnvFrom (populateProbes c).1 cms secrets).1.toContainer)) := by
  induction l generalizing cn cnts with
  | nil => simp [populateContainers.loop]
  | cons c rest ih =>
    rcases hp : populateProbes c with ⟨c1, _ | err1⟩
    · rcases he : populateEnvFrom c1 cms secrets with ⟨c2, _ | err2⟩
      · simp only [populateContainers.loop, hp, he, List.mem_cons, forall_eq_or_imp, true_and,
          List.map_cons]
        refine ⟨(ih _ _).1, fun h => ?_⟩
        rw [(ih _ _).2 h]
        simp
      · simp [populateContainers.loop, hp, he]
    · simp [populateContainers.loop, hp]

theorem populateContainers_loop_error {P R : Type} (cms : List spec.ConfigMapMod)
    (secrets : List spec.SecretMod) (l : List (spec.Container P R)) (cn : Nat)
    (cnts : List (api_v1.Container P R))
    (h : (populateContainers.loop cms secrets cn l cnts).2 ≠ none) :
    ∃ pre c post, l = pre ++ c :: post ∧
      (∀ x ∈ pre, (populateProbes x).2 = none ∧
        (populateEnvFrom (populateProbes x).1 cms secrets).2 = none) ∧
      ((populateProbes c).2 ≠ none ∨
        (populateEnvFrom (populateProbes c).1 cms secrets).2 ≠ none) ∧
      (populateContainers.loop cms secrets cn l cnts).1 =
        cnts ++ pre.map
          (fun x => (populateEnvFrom (populateProbes x).1 cms secrets).1.toContainer) := by
  induction l generalizing cn cnts with
  | nil => simp [populateContainers.loop] at h
  | cons c rest ih =>
    rcases hp : populateProbes c with ⟨c1, _ | err1⟩
    · rcases he : populateEnvFrom c1 cms secrets with ⟨c2, _ | err2⟩
      · simp only [populateContainers.loop, hp, he] at h ⊢
        obtain ⟨pre, x, post, hl, hpre, hx, hres⟩ := ih _ _ h
        refine ⟨c :: pre, x, post, by simp [hl], ?_, hx, ?_⟩
        · intro y hy
          rcases List.mem_cons.mp hy with rfl | hy
          · simp [hp, he]
          · exact hpre y hy
        · simp [hres, hp, he]
      · exact ⟨[], c, rest, by simp, by simp, by simp [hp, he],
          by simp [populateContainers.loop, hp, he]⟩
    · exact ⟨[], c, rest, by simp, by simp, by simp [hp],
        by simp [populateContainers.loop, hp]⟩

theorem searchConfigMap_not_found (cms : List spec.ConfigMapMod) (name : String)
    (h : ∀ cm ∈ cms, cm.Name ≠ name) :
    searchConfigMap cms name =
      ({ Name := "", Data := [] }, some (GoError.configMapNotFound name)) := by
  induction cms with
  | nil => simp [searchConfigMap]
  | cons x rest ih =>
    have hx : x.Name ≠ name := h x (List.mem_cons_self _ _)
    simp [searchConfigMap, hx, ih (fun cm hcm => h cm (List.mem_cons_of_mem _ hcm))]

theorem getSecretDataKeys_not_found (secrets : List spec.SecretMod) (name : String)
    (h : ∀ s ∈ secrets, s.Name ≠ name) :
    getSecretDataKeys secrets name = ([], some (GoError.secretNotFound name)) := by
  induction secrets with
  | nil => simp [getSecretDataKeys]
  | cons x rest ih =>
    have hx : x.Name ≠ name := h x (List.mem_cons_self _ _)
    simp [getSecretDataKeys, hx, ih (fun s hs => h s (List.mem_cons_of_mem _ hs))]

theorem sortStrings_eq_of_perm {l₁ l₂ : List String} (h : l₁.Perm l₂) :
    sortStrings l₁ = sortStrings l₂ :=
  List.eq_of_perm_of_sorted
    (((sortStrings_perm l₁).trans h).trans (sortStrings_perm l₂).symm)
    (sortStrings_sorted l₁) (sortStrings_sorted l₂)

theorem configMapRef_shape (cms : List spec.ConfigMapMod) (e : EnvFromSource) :
    (∃ r, ∀ ei envs, convertEnvFromToEnvs.configMapRef cms ei e envs = (envs ++ r, none)) ∨
    (∃ err, ∀ ei envs, convertEnvFromToEnvs.configMapRef cms ei e envs =
      ([], some (GoError.wrapConfigMapRef err ei))) := by
  cases hc : e.ConfigMapRef with
  | none => exact Or.inl ⟨[], fun ei envs => by simp [convertEnvFromToEnvs.configMapRef, hc]⟩
  | some ref =>
    rcases hs : searchConfigMap cms ref.Name with ⟨cm, _ | err⟩
    · exact Or.inl ⟨(sortStrings (getMapKeys cm.Data)).map (fun key =>
          ({ Name := key
             ValueFrom := some
              { ConfigMapKeyRef := some { Name := ref.Name, Key := key } } } : EnvVar)),
        fun ei envs => by simp only [convertEnvFromToEnvs.configMapRef, hc, hs]⟩
    · exact Or.inr ⟨err, fun ei envs => by
        simp only [convertEnvFromToEnvs.configMapRef, hc, hs]⟩

theorem secretRef_shape (secrets : List spec.SecretMod) (e : EnvFromSource) :
    (∃ r, ∀ ei envs, convertEnvFromToEnvs.secretRef secrets ei e envs = (envs ++ r, none)) ∨
    (∃ err, ∀ ei envs, convertEnvFromToEnvs.secretRef secrets ei e envs =
      ([], some (GoError.wrapSecretRef err ei))) := by
  cases hc : e.SecretRef with
  | none => exact Or.inl ⟨[], fun ei envs => by simp [convertEnvFromToEnvs.secretRef, hc]⟩
  | some ref =>
    rcases hs : getSecretDataKeys secrets ref.Name with ⟨ks, _ | err⟩
    · exact Or.inl ⟨(sortStrings ks).map (fun key =>
          ({ Name := key
             ValueFrom := some
              { SecretKeyRef := some { Name := ref.Name, Key := key } } } : EnvVar)),
        fun ei envs => by simp only [convertEnvFromToEnvs.secretRef, hc, hs]⟩
    · exact Or.inr ⟨err, fun ei envs => by
        simp only [convertEnvFromToEnvs.secretRef, hc, hs]⟩

theorem loop_shape (cms : List spec.ConfigMapMod) (secrets : List spec.SecretMod)
    (l : List EnvFromSource) :
    (∃ r, ∀ ei envs, convertEnvFromToEnvs.loop cms secrets ei l envs = (envs ++ r, none)) ∨
    (∀ ei envs, ∃ err, convertEnvFromToEnvs.loop cms secrets ei l envs = ([], some err)) := by
  induction l with
  | nil => exact Or.inl ⟨[], fun ei envs => by simp [convertEnvFromToEnvs.loop]⟩
  | cons e rest ih =>
    rcases configMapRef_shape cms e with ⟨r1, h1⟩ | ⟨err1, h1⟩
    · rcases secretRef_shape secrets e with ⟨r2, h2⟩ | ⟨err2, h2⟩
      · rcases ih with ⟨r3, h3⟩ | h3
        · exact Or.inl ⟨r1 ++ (r2 ++ r3), fun ei envs => by
            simp [convertEnvFromToEnvs.loop, h1, h2, h3]⟩
        · refine Or.inr fun ei envs => ?_
          obtain ⟨err, he⟩ := h3 (ei + 1) (envs ++ (r1 ++ r2))
          exact ⟨err, by simp [convertEnvFromToEnvs.loop, h1, h2, he]⟩
      · exact Or.inr fun ei envs =>
          ⟨GoError.wrapSecretRef err2 ei, by simp [convertEnvFromToEnvs.loop, h1, h2]⟩
    · exact Or.inr fun ei envs =>
        ⟨GoError.wrapConfigMapRef err1 ei, by simp [convertEnvFromToEnvs.loop, h1]⟩

theorem loop_ok_shape (cms : List spec.ConfigMapMod) (secrets : List spec.SecretMod)
    (l : List EnvFromSource) (ei : Nat) (envs r : List EnvVar)
    (h : convertEnvFromToEnvs.loop cms secrets ei l envs = (r, none)) :
    ∃ r', r = envs ++ r' ∧
      ∀ ei' envs', convertEnvFromToEnvs.loop cms secrets ei' l envs' = (envs' ++ r', none) := by
  rcases loop_shape cms secrets l with ⟨r', hr⟩ | herr
  · refine ⟨r', ?_, hr⟩
    have := hr ei envs
    rw [h] at this
    exact (Prod.mk.inj this).1
  · obtain ⟨err, he⟩ := herr ei envs
    rw [h] at he
    simp at he

theorem loop_append_ok (cms : List spec.ConfigMapMod) (secrets : List spec.SecretMod)
    (a b : List EnvFromSource) (ei : Nat) (envs r : List EnvVar)
    (h : convertEnvFromToEnvs.loop cms secrets ei a envs = (r, none)) :
    convertEnvFromToEnvs.loop cms secrets ei (a ++ b) envs =
      convertEnvFromToEnvs.loop cms secrets (ei + a.length) b r := by
  induction a generalizing ei envs with
  | nil =>
    simp only [convertEnvFromToEnvs.loop, Prod.mk.injEq, and_true] at h
    simp [h]
  | cons e rest ih =>
    rcases hcm : convertEnvFromToEnvs.configMapRef cms ei e envs with ⟨r1, _ | err1⟩
    · rcases hsm : convertEnvFromToEnvs.secretRef secrets ei e r1 with ⟨r2, _ | err2⟩
      · simp only [convertEnvFromToEnvs.loop, hcm, hsm] at h
        rw [List.cons_append]
        simp only [convertEnvFromToEnvs.loop, hcm, hsm]
        rw [ih _ _ h, List.length_cons]
        congr 1
        omega
      · simp [convertEnvFromToEnvs.loop, hcm, hsm] at h
    · simp [convertEnvFromToEnvs.loop, hcm] at h

theorem loop_append_error (cms : List spec.ConfigMapMod) (secrets : List spec.SecretMod)
    (a b : List EnvFromSource) (ei : Nat) (envs : List EnvVar)
    (h : (convertEnvFromToEnvs.loop cms secrets ei a envs).2 ≠ none) :
    convertEnvFromToEnvs.loop cms secrets ei (a ++ b) envs =
      convertEnvFromToEnvs.loop cms secrets ei a envs := by
  induction a generalizing ei envs with
  | nil => simp [convertEnvFromToEnvs.loop] at h
  | cons e rest ih =>
    rcases hcm : convertEnvFromToEnvs.configMapRef cms ei e envs with ⟨r1, _ | err1⟩
    · rcases hsm : convertEnvFromToEnvs.secretRef secrets ei e r1 with ⟨r2, _ | err2⟩
      · simp only [convertEnvFromToEnvs.loop, hcm, hsm] at h
        rw [List.cons_append]
        simp only [convertEnvFromToEnvs.loop, hcm, hsm]
        exact ih _ _ h
      · simp [convertEnvFromToEnvs.loop, hcm, hsm]
    · simp [convertEnvFromToEnvs.loop, hcm]

theorem configMapRef_congr (cms cms' : List spec.ConfigMapMod)
    (hcm : ∀ n, (searchConfigMap cms n).2 = (searchConfigMap cms' n).2 ∧
      sortStrings (getMapKeys (searchConfigMap cms n).1.Data) =
        sortStrings (getMapKeys (searchConfigMap cms' n).1.Data))
    (ei : Nat) (e : EnvFromSource) (envs : List EnvVar) :
    convertEnvFromToEnvs.configMapRef cms ei e envs =
      convertEnvFromToEnvs.configMapRef cms' ei e envs := by
  cases hc : e.ConfigMapRef with
  | none => simp [convertEnvFromToEnvs.configMapRef, hc]
  | some ref =>
    obtain ⟨h2, hk⟩ := hcm ref.Name
    rcases hs : searchConfigMap cms ref.Name with ⟨cm, _ | err⟩ <;>
      rcases hs' : searchConfigMap cms' ref.Name with ⟨cm', _ | err'⟩ <;>
      simp only [hs, hs'] at h2 hk <;>
      simp_all [convertEnvFromToEnvs.configMapRef]

theorem secretRef_congr (secrets secrets' : List spec.SecretMod)
    (hs : ∀ n, (getSecretDataKeys secrets n).2 = (getSecretDataKeys secrets' n).2 ∧
      sortStrings (getSecretDataKeys secrets n).1 = sortStrings (getSecretDataKeys secrets' n).1)
    (ei : Nat) (e : EnvFromSource) (envs : List EnvVar) :
    convertEnvFromToEnvs.secretRef secrets ei e envs =
      convertEnvFromToEnvs.secretRef secrets' ei e envs := by
  cases hc : e.SecretRef with
  | none => simp [convertEnvFromToEnvs.secretRef, hc]
  | some ref =>
    obtain ⟨h2, hk⟩ := hs ref.Name
    rcases hg : getSecretDataKeys secrets ref.Name with ⟨ks, _ | err⟩ <;>
      rcases hg' : getSecretDataKeys secrets' ref.Name with ⟨ks', _ | err'⟩ <;>
      simp only [hg, hg'] at h2 hk <;>
      simp_all [convertEnvFromToEnvs.secretRef]

theorem loop_congr (cms cms' : List spec.ConfigMapMod) (secrets secrets' : List spec.SecretMod)
    (hcm : ∀ n, (searchConfigMap cms n).2 = (searchConfigMap cms' n).2 ∧
      sortStrings (getMapKeys (searchConfigMap cms n).1.Data) =
        sortStrings (getMapKeys (searchConfigMap cms' n).1.Data))
    (hs : ∀ n, (getSecretDataKeys secrets n).2 = (getSecretDataKeys secrets' n).2 ∧
      sortStrings (getSecretDataKeys secrets n).1 = sortStrings (getSecretDataKeys secrets' n).1)
    (l : List EnvFromSource) (ei : Nat) (envs : List EnvVar) :
    convertEnvFromToEnvs.loop cms secrets ei l envs =
      convertEnvFromToEnvs.loop cms' secrets' ei l envs := by
  induction l generalizing ei envs with
  | nil => simp [convertEnvFromToEnvs.loop]
  | cons e rest ih =>
    simp only [convertEnvFromToEnvs.loop, configMapRef_congr cms cms' hcm,
      secretRef_congr secrets secrets' hs, ih]

theorem searchConfigMap_forall₂ (cms cms' : List spec.ConfigMapMod)
    (h : List.Forall₂ (fun a b : spec.ConfigMapMod =>
      a.Name = b.Name ∧ (a.Data.map Prod.fst).Perm (b.Data.map Prod.fst)) cms cms')
    (n : String) :
    (searchConfigMap cms n).2 = (searchConfigMap cms' n).2 ∧
      sortStrings (getMapKeys (searchConfigMap cms n).1.Data) =
        sortStrings (getMapKeys (searchConfigMap cms' n).1.Data) := by
  induction h with
  | nil => simp [searchConfigMap]
  | @cons a b l l' hab _ ih =>
    by_cases hn : a.Name = n
    · have hn' : b.Name = n := hab.1 ▸ hn
      simp only [searchConfigMap, hn, hn', if_true, getMapKeys_eq, true_and]
      exact sortStrings_eq_of_perm hab.2
    · have hn' : ¬ b.Name = n := hab.1 ▸ hn
      simpa [searchConfigMap, hn, hn'] using ih

theorem getSecretDataKeys_forall₂ (secrets secrets' : List spec.SecretMod)
    (h : List.Forall₂ (fun a b : spec.SecretMod =>
      a.Name = b.Name ∧ (a.Data.map Prod.fst).Perm (b.Data.map Prod.fst) ∧
        (a.StringData.map Prod.fst).Perm (b.StringData.map Prod.fst)) secrets secrets')
    (n : String) :
    (getSecretDataKeys secrets n).2 = (getSecretDataKeys secrets' n).2 ∧
      sortStrings (getSecretDataKeys secrets n).1 =
        sortStrings (getSecretDataKeys secrets' n).1 := by
  induction h with
  | nil => simp [getSecretDataKeys]
  | @cons a b l l' hab _ ih =>
    by_cases hn : a.Name = n
    · have hn' : b.Name = n := hab.1 ▸ hn
      simp only [getSecretDataKeys, hn, hn', if_true, foldl_keys, List.nil_append, true_and]
      exact sortStrings_eq_of_perm (hab.2.1.append hab.2.2)
    · have hn' : ¬ b.Name = n := hab.1 ▸ hn
      simpa [getSecretDataKeys, hn, hn'] using ih

theorem searchConfigMap_skip (mid post : List spec.ConfigMapMod) (d : spec.ConfigMapMod)
    (n : String) (hd : d.Name ≠ n) :
    searchConfigMap (mid ++ d :: post) n = searchConfigMap (mid ++ post) n := by
  induction mid with
  | nil => simp [searchConfigMap, hd]
  | cons x rest ih => simp [searchConfigMap, ih]

theorem searchConfigMap_later (pre mid post : List spec.ConfigMapMod)
    (cm d : spec.ConfigMapMod) (hd : d.Name = cm.Name) (n : String) :
    searchConfigMap (pre ++ cm :: (mid ++ d :: post)) n =
      searchConfigMap (pre ++ cm :: (mid ++ post)) n := by
  induction pre with
  | nil =>
    by_cases hn : cm.Name = n
    · simp [searchConfigMap, hn]
    · simp [searchConfigMap, hn, searchConfigMap_skip mid post d n (hd ▸ hn)]
  | cons x rest ih => simp [searchConfigMap, ih]

theorem getSecretDataKeys_skip (mid post : List spec.SecretMod) (d : spec.SecretMod)
    (n : String) (hd : d.Name ≠ n) :
    getSecretDataKeys (mid ++ d :: post) n = getSecretDataKeys (mid ++ post) n := by
  induction mid with
  | nil => simp [getSecretDataKeys, hd]
  | cons x rest ih => simp [getSecretDataKeys, ih]

theorem getSecretDataKeys_later (pre mid post : List spec.SecretMod)
    (s d : spec.SecretMod) (hd : d.Name = s.Name) (n : String) :
    getSecretDataKeys (pre ++ s :: (mid ++ d :: post)) n =
      getSecretDataKeys (pre ++ s :: (mid ++ post)) n := by
  induction pre with
  | nil =>
    by_cases hn : s.Name = n
    · simp [getSecretDataKeys, hn]
    · simp [getSecretDataKeys, hn, getSecretDataKeys_skip mid post d n (hd ▸ hn)]
  | cons x rest ih => simp [getSecretDataKeys, ih]

theorem configMapRef_value (cms : List spec.ConfigMapMod) (ei : Nat) (e : EnvFromSource)
    (envs : List EnvVar) (h : ∀ b ∈ envs, b.Value = "") :
    ∀ b ∈ (convertEnvFromToEnvs.configMapRef cms ei e envs).1, b.Value = "" := by
  cases hc : e.ConfigMapRef with
  | none => simpa [convertEnvFromToEnvs.configMapRef, hc] using h
  | some ref =>
    rcases hs : searchConfigMap cms ref.Name with ⟨cm, _ | err⟩
    · intro b hb
      simp only [convertEnvFromToEnvs.configMapRef, hc, hs, List.mem_append, List.mem_map] at hb
      rcases hb with hb | ⟨k, _, rfl⟩
      · exact h b hb
      · rfl
    · simp [convertEnvFromToEnvs.configMapRef, hc, hs]

theorem secretRef_value (secrets : List spec.SecretMod) (ei : Nat) (e : EnvFromSource)
    (envs : List EnvVar) (h : ∀ b ∈ envs, b.Value = "") :
    ∀ b ∈ (convertEnvFromToEnvs.secretRef secrets ei e envs).1, b.Value = "" := by
  cases hc : e.SecretRef with
  | none => simpa [convertEnvFromToEnvs.secretRef, hc] using h
  | some ref =>
    rcases hs : getSecretDataKeys secrets ref.Name with ⟨ks, _ | err⟩
    · intro b hb
      simp only [convertEnvFromToEnvs.secretRef, hc, hs, List.mem_append, List.mem_map] at hb
      rcases hb with hb | ⟨k, _, rfl⟩
      · exact h b hb
      · rfl
    · simp [convertEnvFromToEnvs.secretRef, hc, hs]

theorem loop_value (cms : List spec.ConfigMapMod) (secrets : List spec.SecretMod)
    (l : List EnvFromSource) (ei : Nat) (envs : List EnvVar)
    (h : ∀ b ∈ envs, b.Value = "") :
    ∀ b ∈ (convertEnvFromToEnvs.loop cms secrets ei l envs).1, b.Value = "" := by
  induction l generalizing ei envs with
  | nil => simpa [convertEnvFromToEnvs.loop] using h
  | cons e rest ih =>
    have h1 := configMapRef_value cms ei e envs h
    rcases hcm : convertEnvFromToEnvs.configMapRef cms ei e envs with ⟨r1, _ | err1⟩
    · rw [hcm] at h1
      have h2 := secretRef_value secrets ei e r1 h1
      rcases hsm : convertEnvFromToEnvs.secretRef secrets ei e r1 with ⟨r2, _ | err2⟩
      · rw [hsm] at h2
        simp only [convertEnvFromToEnvs.loop, hcm, hsm]
        exact ih _ _ h2
      · rw [hsm] at h2
        simpa [convertEnvFromToEnvs.loop, hcm, hsm] using h2
    · rw [hcm] at h1
      simpa [convertEnvFromToEnvs.loop, hcm] using h1

theorem populateContainers_loop_append {P R : Type} (cms : List spec.ConfigMapMod)
    (secrets : List spec.SecretMod) (pre rest : List (spec.Container P R)) (cn : Nat)
    (cnts : List (api_v1.Container P R))
    (hpre : ∀ x ∈ pre, (populateProbes x).2 = none ∧
      (populateEnvFrom (populateProbes x).1 cms secrets).2 = none) :
    populateContainers.loop cms secrets cn (pre ++ rest) cnts =
      populateContainers.loop cms secrets (cn + pre.length) rest
        (cnts ++ pre.map
          (fun x => (populateEnvFrom (populateProbes x).1 cms secrets).1.toContainer)) := by
  induction pre generalizing cn cnts with
  | nil => simp
  | cons c more ih =>
    have hc := hpre c (List.mem_cons_self _ _)
    rcases hp : populateProbes c with ⟨c1, _ | err1⟩
    · rw [hp] at hc
      rcases he : populateEnvFrom c1 cms secrets with ⟨c2, _ | err2⟩
      · rw [List.cons_append]
        simp only [populateContainers.loop, hp, he]
        rw [ih _ _ (fun x hx => hpre x (List.mem_cons_of_mem _ hx)), List.length_cons]
        simp only [List.map_cons, hp, he, List.append_assoc, List.singleton_append]
        congr 1
        omega
      · simp [he] at hc
    · simp [hp] at hc

theorem configMapRef_unresolved (cms : List spec.ConfigMapMod) (ei : Nat) (e : EnvFromSource)
    (envs : List EnvVar) (r : ConfigMapEnvSource) (hc : e.ConfigMapRef = some r)
    (hn : ∀ cm ∈ cms, cm.Name ≠ r.Name) :
    convertEnvFromToEnvs.configMapRef cms ei e envs =
      ([], some (GoError.wrapConfigMapRef (GoError.configMapNotFound r.Name) ei)) := by
  simp [convertEnvFromToEnvs.configMapRef, hc, searchConfigMap_not_found cms r.Name hn]

theorem secretRef_unresolved (secrets : List spec.SecretMod) (ei : Nat) (e : EnvFromSource)
    (envs : List EnvVar) (r : SecretEnvSource) (hc : e.SecretRef = some r)
    (hn : ∀ s ∈ secrets, s.Name ≠ r.Name) :
    convertEnvFromToEnvs.secretRef secrets ei e envs =
      ([], some (GoError.wrapSecretRef (GoError.secretNotFound r.Name) ei)) := by
  simp [convertEnvFromToEnvs.secretRef, hc, getSecretDataKeys_not_found secrets r.Name hn]

theorem loop_error_first (cms : List spec.ConfigMapMod) (secrets : List spec.SecretMod)
    (l : List EnvFromSource) (ei : Nat) (envs : List EnvVar)
    (h : (convertEnvFromToEnvs.loop cms secrets ei l envs).2 ≠ none) :
    ∃ pre e post, l = pre ++ e :: post ∧
      (∀ x ∈ pre,
        (∀ r, x.ConfigMapRef = some r → ∃ cm ∈ cms, cm.Name = r.Name) ∧
        (∀ r, x.SecretRef = some r → ∃ s ∈ secrets, s.Name = r.Name)) ∧
      ((∃ r, e.ConfigMapRef = some r ∧ (∀ cm ∈ cms, cm.Name ≠ r.Name) ∧
          (convertEnvFromToEnvs.loop cms secrets ei l envs).2 =
            some (GoError.wrapConfigMapRef (GoError.configMapNotFound r.Name)
              (ei + pre.length))) ∨
        ((∀ r, e.ConfigMapRef = some r → ∃ cm ∈ cms, cm.Name = r.Name) ∧
          ∃ r, e.SecretRef = some r ∧ (∀ s ∈ secrets, s.Name ≠ r.Name) ∧
            (convertEnvFromToEnvs.loop cms secrets ei l envs).2 =
              some (GoError.wrapSecretRef (GoError.secretNotFound r.Name)
                (ei + pre.length)))) := by
  induction l generalizing ei envs with
  | nil => simp [convertEnvFromToEnvs.loop] at h
  | cons e rest ih =>
    by_cases hbc : ∃ r, e.ConfigMapRef = some r ∧ ∀ cm ∈ cms, cm.Name ≠ r.Name
    · obtain ⟨r, hr, hn⟩ := hbc
      exact ⟨[], e, rest, rfl, by simp, Or.inl ⟨r, hr, hn, by
        simp [convertEnvFromToEnvs.loop, configMapRef_unresolved cms ei e envs r hr hn]⟩⟩
    · have hcok : ∀ r, e.ConfigMapRef = some r → ∃ cm ∈ cms, cm.Name = r.Name := by
        intro r hr
        by_contra hne
        exact hbc ⟨r, hr, fun cm hcm heq => hne ⟨cm, hcm, heq⟩⟩
      have hc2 : (convertEnvFromToEnvs.configMapRef cms ei e envs).2 = none := by
        by_contra hne
        exact hbc ((configMapRef_error_iff cms ei e envs).mp hne)
      rcases hcm : convertEnvFromToEnvs.configMapRef cms ei e envs with ⟨r1, _ | err1⟩
      · by_cases hbs : ∃ r, e.SecretRef = some r ∧ ∀ s ∈ secrets, s.Name ≠ r.Name
        · obtain ⟨r, hr, hn⟩ := hbs
          exact ⟨[], e, rest, rfl, by simp, Or.inr ⟨hcok, r, hr, hn, by
            simp [convertEnvFromToEnvs.loop, hcm,
              secretRef_unresolved secrets ei e r1 r hr hn]⟩⟩
        · have hsok : ∀ r, e.SecretRef = some r → ∃ s ∈ secrets, s.Name = r.Name := by
            intro r hr
            by_contra hne
            exact hbs ⟨r, hr, fun s hs heq => hne ⟨s, hs, heq⟩⟩
          have hs2 : (convertEnvFromToEnvs.secretRef secrets ei e r1).2 = none := by
            by_contra hne
            exact hbs ((secretRef_error_iff secrets ei e r1).mp hne)
          rcases hsm : convertEnvFromToEnvs.secretRef secrets ei e r1 with ⟨r2, _ | err2⟩
          · simp only [convertEnvFromToEnvs.loop, hcm, hsm] at h ⊢
            obtain ⟨pre, x, post, hl, hpre, hx⟩ := ih _ _ h
            refine ⟨e :: pre, x, post, by simp [hl], ?_, ?_⟩
            · intro y hy
              rcases List.mem_cons.mp hy with rfl | hy
              · exact ⟨hcok, hsok⟩
              · exact hpre y hy
            · have hidx : ei + 1 + pre.length = ei + (e :: pre).length := by
                simp only [List.length_cons]
                omega
              rw [hidx] at hx
              exact hx
          · simp [hsm] at hs2
      · simp [hcm] at hc2

theorem populateProbes_fields {P R : Type} (c : spec.Container P R) :
    (populateProbes c).1.EnvFrom = c.EnvFrom ∧ (populateProbes c).1.Env = c.Env ∧
    (populateProbes c).1.Rest = c.Rest := by
  obtain ⟨⟨envFrom, env, lp, rp, rest⟩, h⟩ := c
  cases h <;> cases lp <;> cases rp <;> simp [populateProbes]

theorem populateProbes_error {P R : Type} (c : spec.Container P R) :
    (c.Health ≠ none ∧ (c.LivenessProbe ≠ none ∨ c.ReadinessProbe ≠ none) →
      (populateProbes c).2 = some GoError.healthWithProbes) ∧
    (¬ (c.Health ≠ none ∧ (c.LivenessProbe ≠ none ∨ c.ReadinessProbe ≠ none)) →
      (populateProbes c).2 = none) := by
  obtain ⟨⟨envFrom, env, lp, rp, rest⟩, h⟩ := c
  cases h <;> cases lp <;> cases rp <;> simp [populateProbes]

theorem populateEnvFrom_error {P R : Type} (c : spec.Container P R)
    (cms : List spec.ConfigMapMod) (secrets : List spec.SecretMod) :
    (populateEnvFrom c cms secrets).2 = (convertEnvFromToEnvs c.EnvFrom cms secrets).2 := by
  unfold populateEnvFrom
  rcases hconv : convertEnvFromToEnvs c.EnvFrom cms secrets with ⟨envs, _ | err⟩ <;> simp

theorem populateEnvFrom_rest {P R : Type} (c : spec.Container P R)
    (cms : List spec.ConfigMapMod) (secrets : List spec.SecretMod) :
    (populateEnvFrom c cms secrets).1.Rest = c.Rest := by
  unfold populateEnvFrom
  rcases hconv : convertEnvFromToEnvs c.EnvFrom cms secrets with ⟨envs, _ | err⟩ <;> simp

theorem populateContainers_loop_at {P R : Type} (cms : List spec.ConfigMapMod)
    (secrets : List spec.SecretMod) (c : spec.Container P R)
    (rest : List (spec.Container P R)) (cn : Nat) (cnts : List (api_v1.Container P R)) :
    (∀ err, (populateProbes c).2 = some err →
      populateContainers.loop cms secrets cn (c :: rest) cnts =
        (cnts, some (GoError.wrapHealthToProbes err cn))) ∧
    (∀ err, (populateProbes c).2 = none →
      (populateEnvFrom (populateProbes c).1 cms secrets).2 = some err →
      populateContainers.loop cms secrets cn (c :: rest) cnts =
        (cnts, some (GoError.envFromToEnvs cn err))) := by
  rcases hp : populateProbes c with ⟨c1, _ | err1⟩
  · rcases he : populateEnvFrom c1 cms secrets with ⟨c2, _ | err2⟩
    · simp [he]
    · simp [populateContainers.loop, hp, he]
  · simp [populateContainers.loop, hp]

/-! ## Probe unification -/

/-- C1: `populateProbes c` returns an error if and only if `c.Health` is set and
at least one of `c.LivenessProbe`, `c.ReadinessProbe` is set; and whenever it
returns an error the container handed back is `c` itself, nothing merged. -/
theorem populateProbes_error_iff {P R : Type} (c : spec.Container P R) :
    ((populateProbes c).2 ≠ none ↔
      (c.Health ≠ none ∧ (c.LivenessProbe ≠ none ∨ c.ReadinessProbe ≠ none))) ∧
    ((populateProbes c).2 ≠ none →
      populateProbes c = (c, some GoError.healthWithProbes)) := by
  obtain ⟨⟨envFrom, env, lp, rp, rest⟩, h⟩ := c
  cases h <;> cases lp <;> cases rp <;> simp [populateProbes]

/-- C2: a container whose `Health` is the probe `p` and whose explicit probes
are both unset is populated without error: both explicit probes become `p`,
`Health` becomes unset, and no other field changes. -/
theorem populateProbes_health_only {P R : Type} (c : spec.Container P R) (p : P)
    (hh : c.Health = some p) (hl : c.LivenessProbe = none)
    (hr : c.ReadinessProbe = none) :
    (populateProbes c).2 = none ∧
    (populateProbes c).1.LivenessProbe = some p ∧
    (populateProbes c).1.ReadinessProbe = some p ∧
    (populateProbes c).1.Health = none ∧
    populateProbes c =
      ({ c with LivenessProbe := some p, ReadinessProbe := some p, Health := none }, none) := by
  obtain ⟨⟨envFrom, env, lp, rp, rest⟩, h⟩ := c
  simp only at hh hl hr
  subst hh hl hr
  simp [populateProbes]

/-- Witness for C2: a container with only the unified probe `7`. -/
theorem populateProbes_health_only_witness :
    (populateProbes ({ Rest := (), Health := some 7 } : spec.Container Nat Unit)).2 = none ∧
    (populateProbes ({ Rest := (), Health := some 7 } : spec.Container Nat Unit)).1
      = { Rest := (), LivenessProbe := some 7, ReadinessProbe := some 7, Health := none } :=
  have h := populateProbes_health_only
    ({ Rest := (), Health := some 7 } : spec.Container Nat Unit) 7 rfl rfl rfl
  ⟨h.1, by rw [h.2.2.2.2]⟩

/-- C3: a container whose `Health` is unset passes through `populateProbes`
without error and unchanged in every field, whatever its explicit probes. -/
theorem populateProbes_no_health {P R : Type} (c : spec.Container P R)
    (hh : c.Health = none) :
    populateProbes c = (c, none) := by
  simp [populateProbes, hh]

/-- Witness for C3: a container with both explicit probes and no unified one. -/
theorem populateProbes_no_health_witness :
    populateProbes ({ Rest := (), LivenessProbe := some 1, ReadinessProbe := some 2 } :
        spec.Container Nat Unit)
      = ({ Rest := (), LivenessProbe := some 1, ReadinessProbe := some 2 }, none) :=
  populateProbes_no_health _ rfl

/-! ## Expansion of import directives -/

/-- C4: a single directive that carries only a config-map reference, to a name
declared in the batch (`cm` being the first config map of that name), expands
without error into one binding per key of `cm.Data`, in strictly ascending key
order; each binding has the key as name, no literal value, and a
`ConfigMapKeyRef` to the referenced name and the key, and nothing else. -/
theorem convertEnvFromToEnvs_configMapRef (cms : List spec.ConfigMapMod)
    (secrets : List spec.SecretMod) (e : EnvFromSource) (ref : ConfigMapEnvSource)
    (cm : spec.ConfigMapMod)
    (hc : e.ConfigMapRef = some ref) (hs : e.SecretRef = none)
    (hfind : cms.find? (fun x => decide (x.Name = ref.Name)) = some cm)
    (hwf : GoMap.WF cm.Data) :
    ∃ keys : List String,
      keys.Sorted (fun a b => a < b) ∧
      keys.Perm (cm.Data.map Prod.fst) ∧
      convertEnvFromToEnvs [e] cms secrets =
        (keys.map (fun key =>
          ({ Name := key, Value := "",
             ValueFrom := some
              { FieldRef := none, ResourceFieldRef := none,
                ConfigMapKeyRef := some { Name := ref.Name, Key := key, Optional := none },
                SecretKeyRef := none } } : EnvVar)), none) := by
  refine ⟨sortStrings (cm.Data.map Prod.fst), ?_, sortStrings_perm _, ?_⟩
  · exact (sortStrings_sorted _).lt_of_le ((sortStrings_perm _).nodup_iff.mpr hwf)
  · simp [convertEnvFromToEnvs, convertEnvFromToEnvs.loop,
      configMapRef_find cms 0 e [] ref cm hc hfind, secretRef_none secrets 0 e _ hs]

/-- Witness for C4: the config map `cm` with keys enumerated as `b, a, c`
expands to the bindings `a, b, c`. -/
theorem convertEnvFromToEnvs_configMapRef_witness :
    (∃ keys : List String,
      keys.Sorted (fun a b => a < b) ∧
      keys.Perm ["b", "a", "c"] ∧
      convertEnvFromToEnvs [{ ConfigMapRef := some { Name := "cm" } }]
          [{ Name := "cm", Data := [("b", "1"), ("a", "2"), ("c", "3")] }] [] =
        (keys.map (fun key =>
          ({ Name := key, Value := "",
             ValueFrom := some
              { FieldRef := none, ResourceFieldRef := none,
                ConfigMapKeyRef := some { Name := "cm", Key := key, Optional := none },
                SecretKeyRef := none } } : EnvVar)), none)) ∧
    (convertEnvFromToEnvs [{ ConfigMapRef := some { Name := "cm" } }]
        [{ Name := "cm", Data := [("b", "1"), ("a", "2"), ("c", "3")] }] []).1.map
      (fun b => b.Name) = ["a", "b", "c"] :=
  ⟨convertEnvFromToEnvs_configMapRef
      [{ Name := "cm", Data := [("b", "1"), ("a", "2"), ("c", "3")] }] []
      { ConfigMapRef := some { Name := "cm" } } { Name := "cm" }
      { Name := "cm", Data := [("b", "1"), ("a", "2"), ("c", "3")] }
      rfl rfl (by decide) (by decide),
    by decide⟩

/-- C5: a single directive that carries only a secret reference, to a name
declared in the batch (`s` being the first secret of that name), expands
without error into bindings whose names are the keys of `s.Data` together with
the keys of `s.StringData`, in ascending order, a key of both occurring twice
(`|Data| + |StringData|` bindings); each binding has a `SecretKeyRef` to the
referenced name and the key. -/
theorem convertEnvFromToEnvs_secretRef (cms : List spec.ConfigMapMod)
    (secrets : List spec.SecretMod) (e : EnvFromSource) (ref : SecretEnvSource)
    (s : spec.SecretMod)
    (hc : e.ConfigMapRef = none) (hs : e.SecretRef = some ref)
    (hfind : secrets.find? (fun x => decide (x.Name = ref.Name)) = some s) :
    ∃ keys : List String,
      keys.Sorted (fun a b => a ≤ b) ∧
      keys.Perm (s.Data.map Prod.fst ++ s.StringData.map Prod.fst) ∧
      keys.length = s.Data.length + s.StringData.length ∧
      convertEnvFromToEnvs [e] cms secrets =
        (keys.map (fun key =>
          ({ Name := key, Value := "",
             ValueFrom := some
              { FieldRef := none, ResourceFieldRef := none, ConfigMapKeyRef := none,
                SecretKeyRef := some { Name := ref.Name, Key := key, Optional := none } } } :
            EnvVar)), none) := by
  refine ⟨sortStrings (s.Data.map Prod.fst ++ s.StringData.map Prod.fst),
    sortStrings_sorted _, sortStrings_perm _, ?_, ?_⟩
  · simpa using (sortStrings_perm (s.Data.map Prod.fst ++ s.StringData.map Prod.fst)).length_eq
  · simp [convertEnvFromToEnvs, convertEnvFromToEnvs.loop,
      configMapRef_none cms 0 e [] hc, secretRef_find secrets 0 e _ ref s hs hfind]

/-- Witness for C5: `Data` keys `{p}` and `StringData` keys `{q}` expand to
`p, q`; with `p` in both, `p` is emitted twice. -/
theorem convertEnvFromToEnvs_secretRef_witness :
    (∃ keys : List String,
      keys.Sorted (fun a b => a ≤ b) ∧
      keys.Perm (["p"] ++ ["q"]) ∧
      keys.length = 1 + 1 ∧
      convertEnvFromToEnvs [{ SecretRef := some { Name := "s" } }] []
          [{ Name := "s", Data := [("p", [1])], StringData := [("q", "v")] }] =
        (keys.map (fun key =>
          ({ Name := key, Value := "",
             ValueFrom := some
              { FieldRef := none, ResourceFieldRef := none, ConfigMapKeyRef := none,
                SecretKeyRef := some { Name := "s", Key := key, Optional := none } } } :
            EnvVar)), none)) ∧
    (convertEnvFromToEnvs [{ SecretRef := some { Name := "s" } }] []
        [{ Name := "s", Data := [("p", [1])], StringData := [("q", "v")] }]).1.map
      (fun b => b.Name) = ["p", "q"] ∧
    (convertEnvFromToEnvs [{ SecretRef := some { Name := "s" } }] []
        [{ Name := "s", Data := [("p", [1])], StringData := [("q", "v"), ("p", "w")] }]).1.map
      (fun b => b.Name) = ["p", "p", "q"] :=
  ⟨convertEnvFromToEnvs_secretRef []
      [{ Name := "s", Data := [("p", [1])], StringData := [("q", "v")] }]
      { SecretRef := some { Name := "s" } } { Name := "s" }
      { Name := "s", Data := [("p", [1])], StringData := [("q", "v")] }
      rfl rfl (by decide),
    by decide, by decide⟩

/-! ## Merging and the batch -/

/-- C6: when `convertEnvFromToEnvs` succeeds on the directives of `c` with the
bindings `E`, `populateEnvFrom` returns without error `c` with `Env` equal to
`E` followed by the declared `c.Env`, nothing removed, reordered or merged. -/
theorem populateEnvFrom_env {P R : Type} (c : spec.Container P R)
    (cms : List spec.ConfigMapMod) (secrets : List spec.SecretMod) (E : List EnvVar)
    (h : convertEnvFromToEnvs c.EnvFrom cms secrets = (E, none)) :
    (populateEnvFrom c cms secrets).2 = none ∧
    (populateEnvFrom c cms secrets).1.Env = E ++ c.Env := by
  simp [populateEnvFrom, h]

/-- Witness for C6: the imported keys `x, y` and the declared literal `x` give
the environment `x, y, x`, the last one being the literal. -/
theorem populateEnvFrom_env_witness :
    (populateEnvFrom
        ({ Rest := (), EnvFrom := [{ ConfigMapRef := some { Name := "cm" } }],
           Env := [{ Name := "x", Value := "literal" }] } : spec.Container Nat Unit)
        [{ Name := "cm", Data := [("y", "2"), ("x", "1")] }] []).2 = none ∧
    (populateEnvFrom
        ({ Rest := (), EnvFrom := [{ ConfigMapRef := some { Name := "cm" } }],
           Env := [{ Name := "x", Value := "literal" }] } : spec.Container Nat Unit)
        [{ Name := "cm", Data := [("y", "2"), ("x", "1")] }] []).1.Env =
      [ { Name := "x", ValueFrom := some { ConfigMapKeyRef := some { Name := "cm", Key := "x" } } },
        { Name := "y", ValueFrom := some { ConfigMapKeyRef := some { Name := "cm", Key := "y" } } } ]
      ++ [{ Name := "x", Value := "literal" }] :=
  populateEnvFrom_env
    ({ Rest := (), EnvFrom := [{ ConfigMapRef := some { Name := "cm" } }],
       Env := [{ Name := "x", Value := "literal" }] } : spec.Container Nat Unit)
    [{ Name := "cm", Data := [("y", "2"), ("x", "1")] }] [] _ (by decide)

/-- C7: when `populateContainers` succeeds, every container of the returned
list has an empty `EnvFrom`. -/
theorem populateContainers_envFrom_nil {P R : Type} (containers : List (spec.Container P R))
    (cms : List spec.ConfigMapMod) (secrets : List spec.SecretMod)
    (h : (populateContainers containers cms secrets).2 = none) :
    ∀ c ∈ (populateContainers containers cms secrets).1, c.EnvFrom = [] := by
  unfold populateContainers at h ⊢
  have hok := populateContainers_loop_ok cms secrets containers 0 []
  rw [hok.2 h]
  intro c hc
  simp only [List.nil_append, List.mem_map] at hc
  obtain ⟨x, hx, rfl⟩ := hc
  exact populateEnvFrom_ok_envFrom _ cms secrets ((hok.1.mp h) x hx).2

/-- Witness for C7: a batch of two containers, the first importing the config
map `cm`; both returned containers have no `EnvFrom`. -/
theorem populateContainers_envFrom_nil_witness :
    (populateContainers
        ([{ Rest := (), EnvFrom := [{ ConfigMapRef := some { Name := "cm" } }] },
          { Rest := (), Health := some 3 }] : List (spec.Container Nat Unit))
        [{ Name := "cm", Data := [("k", "v")] }] []).1.length = 2 ∧
    ∀ c ∈ (populateContainers
        ([{ Rest := (), EnvFrom := [{ ConfigMapRef := some { Name := "cm" } }] },
          { Rest := (), Health := some 3 }] : List (spec.Container Nat Unit))
        [{ Name := "cm", Data := [("k", "v")] }] []).1, c.EnvFrom = [] :=
  ⟨by decide, populateContainers_envFrom_nil _ _ _ (by decide)⟩

/-- C8: `convertEnvFromToEnvs` returns an error if and only if some directive
has a config-map reference whose name is the `Name` of no element of `cms`, or
a secret reference whose name is the `Name` of no element of `secrets` (each
kind looked up in its own list only); and with an error no binding is returned. -/
theorem convertEnvFromToEnvs_error_iff (envFrom : List EnvFromSource)
    (cms : List spec.ConfigMapMod) (secrets : List spec.SecretMod) :
    ((convertEnvFromToEnvs envFrom cms secrets).2 ≠ none ↔
      ∃ e ∈ envFrom,
        (∃ r, e.ConfigMapRef = some r ∧ ∀ cm ∈ cms, cm.Name ≠ r.Name) ∨
        (∃ r, e.SecretRef = some r ∧ ∀ s ∈ secrets, s.Name ≠ r.Name)) ∧
    ((convertEnvFromToEnvs envFrom cms secrets).2 ≠ none →
      (convertEnvFromToEnvs envFrom cms secrets).1 = []) :=
  ⟨loop_error_iff cms secrets envFrom 0 [], loop_error_fst cms secrets envFrom 0 []⟩

/-- Counterexample to C9 as stated: of three containers the second declares
`health` together with `livenessProbe`; `populateContainers` returns an error
and, next to it, the native container of the first one. -/
theorem populateContainers_error_nonempty :
    (populateContainers
        ([{ Rest := 10 }, { Rest := 20, Health := some 1, LivenessProbe := some 2 },
          { Rest := 30 }] : List (spec.Container Nat Nat)) [] []).2 ≠ none ∧
    (populateContainers
        ([{ Rest := 10 }, { Rest := 20, Health := some 1, LivenessProbe := some 2 },
          { Rest := 30 }] : List (spec.Container Nat Nat)) [] []).1 = [{ Rest := 10 }] ∧
    ¬ ∀ (containers : List (spec.Container Nat Nat)) (cms : List spec.ConfigMapMod)
        (secrets : List spec.SecretMod),
        (populateContainers containers cms secrets).2 ≠ none →
          (populateContainers containers cms secrets).1 = [] := by
  refine ⟨by decide, by decide, fun h => ?_⟩
  have h1 := h [{ Rest := 10 }, { Rest := 20, Health := some 1, LivenessProbe := some 2 },
    { Rest := 30 }] [] [] (by decide)
  revert h1
  decide

/-- C9, amended: when `populateContainers` returns an error, the batch splits
at its first failing container `c` (every container before it passes both
stages), and the list returned next to the error has as many elements as there
are containers before `c`: none for `c` or any later container, and none at
all exactly when `c` is the first of the batch. -/
theorem populateContainers_error_returns_preceding {P R : Type} (containers : List (spec.Container P R))
    (cms : List spec.ConfigMapMod) (secrets : List spec.SecretMod)
    (h : (populateContainers containers cms secrets).2 ≠ none) :
    ∃ pre c post, containers = pre ++ c :: post ∧
      (∀ x ∈ pre, (populateProbes x).2 = none ∧
        (populateEnvFrom (populateProbes x).1 cms secrets).2 = none) ∧
      ((populateProbes c).2 ≠ none ∨
        (populateEnvFrom (populateProbes c).1 cms secrets).2 ≠ none) ∧
      (populateContainers containers cms secrets).1.length = pre.length ∧
      (populateContainers containers cms secrets).1.length < containers.length ∧
      ((populateContainers containers cms secrets).1 = [] ↔ pre = []) := by
  obtain ⟨pre, c, post, hl, hpre, hc, hres⟩ :=
    populateContainers_loop_error cms secrets containers 0 [] h
  have hlen : (populateContainers containers cms secrets).1.length = pre.length := by
    simp [populateContainers, hres]
  refine ⟨pre, c, post, hl, hpre, hc, hlen, ?_, ?_⟩
  · rw [hlen, hl]
    simp
  · simp [populateContainers, hres]

/-- Witness for C9, amended: an import of the undeclared config map `absent` in
the first container; the error comes with the empty list. -/
theorem populateContainers_error_returns_preceding_witness :
    (populateContainers
        ([{ Rest := (), EnvFrom := [{ ConfigMapRef := some { Name := "absent" } }] },
          { Rest := () }] : List (spec.Container Nat Unit)) [] []).1 = [] ∧
    ∃ pre c post,
      ([{ Rest := (), EnvFrom := [{ ConfigMapRef := some { Name := "absent" } }] },
          { Rest := () }] : List (spec.Container Nat Unit)) = pre ++ c :: post ∧
      (∀ x ∈ pre, (populateProbes x).2 = none ∧
        (populateEnvFrom (populateProbes x).1 [] []).2 = none) ∧
      ((populateProbes c).2 ≠ none ∨
        (populateEnvFrom (populateProbes c).1 [] []).2 ≠ none) ∧
      (populateContainers
        ([{ Rest := (), EnvFrom := [{ ConfigMapRef := some { Name := "absent" } }] },
          { Rest := () }] : List (spec.Container Nat Unit)) [] []).1.length = pre.length ∧
      (populateContainers
        ([{ Rest := (), EnvFrom := [{ ConfigMapRef := some { Name := "absent" } }] },
          { Rest := () }] : List (spec.Container Nat Unit)) [] []).1.length <
        ([{ Rest := (), EnvFrom := [{ ConfigMapRef := some { Name := "absent" } }] },
          { Rest := () }] : List (spec.Container Nat Unit)).length ∧
      ((populateContainers
        ([{ Rest := (), EnvFrom := [{ ConfigMapRef := some { Name := "absent" } }] },
          { Rest := () }] : List (spec.Container Nat Unit)) [] []).1 = [] ↔ pre = []) :=
  ⟨by decide, populateContainers_error_returns_preceding _ [] [] (by decide)⟩

/-- C10: `populateContainers` succeeds if and only if every container passes
`populateProbes` and then `populateEnvFrom`; the returned list then has the
length of the batch and is, in batch order, the embedded native container of
`populateEnvFrom (populateProbes c)` for each container `c`. -/
theorem populateContainers_ok_iff {P R : Type} (containers : List (spec.Container P R))
    (cms : List spec.ConfigMapMod) (secrets : List spec.SecretMod) :
    ((populateContainers containers cms secrets).2 = none ↔
      ∀ c ∈ containers, (populateProbes c).2 = none ∧
        (populateEnvFrom (populateProbes c).1 cms secrets).2 = none) ∧
    ((populateContainers containers cms secrets).2 = none →
      (populateContainers containers cms secrets).1.length = containers.length ∧
      (populateContainers containers cms secrets).1 =
        containers.map
          (fun c => (populateEnvFrom (populateProbes c).1 cms secrets).1.toContainer)) := by
  have hok := populateContainers_loop_ok cms secrets containers 0 []
  refine ⟨hok.1, fun h => ?_⟩
  have hres := hok.2 h
  simp only [List.nil_append] at hres
  exact ⟨by simp [populateContainers, hres], hres⟩

/-! ## Error reports, composition and independence -/

/-- C11: when `populateContainers` fails, the batch splits at its first failing
container `c`, at index `pre.length` (every container before it passes both
stages), and the error names that index and the failing stage: the
'health' to 'probes' wrapper when `c` declares `health` with an explicit probe,
whatever its `envFrom`, and otherwise the 'envFrom' to 'envs' wrapper around the
conversion error of `c.EnvFrom`; the containers after `c` play no part. -/
theorem populateContainers_error_first {P R : Type} (containers : List (spec.Container P R))
    (cms : List spec.ConfigMapMod) (secrets : List spec.SecretMod)
    (h : (populateContainers containers cms secrets).2 ≠ none) :
    ∃ pre c post, containers = pre ++ c :: post ∧
      (∀ x ∈ pre, (populateProbes x).2 = none ∧
        (populateEnvFrom (populateProbes x).1 cms secrets).2 = none) ∧
      (((c.Health ≠ none ∧ (c.LivenessProbe ≠ none ∨ c.ReadinessProbe ≠ none)) ∧
          (populateContainers containers cms secrets).2 =
            some (GoError.wrapHealthToProbes GoError.healthWithProbes pre.length)) ∨
        (¬ (c.Health ≠ none ∧ (c.LivenessProbe ≠ none ∨ c.ReadinessProbe ≠ none)) ∧
          ∃ err, (convertEnvFromToEnvs c.EnvFrom cms secrets).2 = some err ∧
            (populateContainers containers cms secrets).2 =
              some (GoError.envFromToEnvs pre.length err))) ∧
      ∀ post', (populateContainers (pre ++ c :: post') cms secrets).2 =
        (populateContainers containers cms secrets).2 := by
  obtain ⟨pre, c, post, hl, hpre, hc, -⟩ :=
    populateContainers_loop_error cms secrets containers 0 [] h
  have hsplit : ∀ post', populateContainers (pre ++ c :: post') cms secrets =
      populateContainers.loop cms secrets pre.length (c :: post')
        (pre.map (fun x => (populateEnvFrom (populateProbes x).1 cms secrets).1.toContainer)) := by
    intro post'
    simp [populateContainers, populateContainers_loop_append cms secrets pre _ 0 [] hpre]
  refine ⟨pre, c, post, hl, hpre, ?_, ?_⟩
  · by_cases hconf : c.Health ≠ none ∧ (c.LivenessProbe ≠ none ∨ c.ReadinessProbe ≠ none)
    · refine Or.inl ⟨hconf, ?_⟩
      rw [hl, hsplit post,
        (populateContainers_loop_at cms secrets c post _ _).1 _ ((populateProbes_error c).1 hconf)]
    · have hp : (populateProbes c).2 = none := (populateProbes_error c).2 hconf
      have he := hc.resolve_left (by simp [hp])
      rw [populateEnvFrom_error, (populateProbes_fields c).1] at he
      obtain ⟨err, herr⟩ := Option.ne_none_iff_exists'.mp he
      refine Or.inr ⟨hconf, err, herr, ?_⟩
      rw [hl, hsplit post, (populateContainers_loop_at cms secrets c post _ _).2 err hp
        (by rw [populateEnvFrom_error, (populateProbes_fields c).1]; exact herr)]
  · intro post'
    rw [hl, hsplit post, hsplit post']
    rcases hp : (populateProbes c).2 with _ | err1
    · have he := hc.resolve_left (by simp [hp])
      obtain ⟨err, herr⟩ := Option.ne_none_iff_exists'.mp he
      rw [(populateContainers_loop_at cms secrets c post _ _).2 err hp herr,
        (populateContainers_loop_at cms secrets c post' _ _).2 err hp herr]
    · rw [(populateContainers_loop_at cms secrets c post _ _).1 err1 hp,
        (populateContainers_loop_at cms secrets c post' _ _).1 err1 hp]

/-- Witness for C11: of three containers the second declares `health` with a
liveness probe and imports an undeclared config map; the error names index 1
and the probe stage. -/
theorem populateContainers_error_first_witness :
    (populateContainers
        ([{ Rest := () },
          { Rest := (), Health := some 1, LivenessProbe := some 2,
            EnvFrom := [{ ConfigMapRef := some { Name := "absent" } }] },
          { Rest := () }] : List (spec.Container Nat Unit)) [] []).2 =
      some (GoError.wrapHealthToProbes GoError.healthWithProbes 1) ∧
    ∃ pre c post,
      ([{ Rest := () },
          { Rest := (), Health := some 1, LivenessProbe := some 2,
            EnvFrom := [{ ConfigMapRef := some { Name := "absent" } }] },
          { Rest := () }] : List (spec.Container Nat Unit)) = pre ++ c :: post ∧
      ∀ post', (populateContainers (pre ++ c :: post') [] []).2 =
        (populateContainers
          ([{ Rest := () },
            { Rest := (), Health := some 1, LivenessProbe := some 2,
              EnvFrom := [{ ConfigMapRef := some { Name := "absent" } }] },
            { Rest := () }] : List (spec.Container Nat Unit)) [] []).2 :=
  ⟨by decide,
    let ⟨pre, c, post, hl, _, _, hpost⟩ := populateContainers_error_first
      ([{ Rest := () },
        { Rest := (), Health := some 1, LivenessProbe := some 2,
          EnvFrom := [{ ConfigMapRef := some { Name := "absent" } }] },
        { Rest := () }] : List (spec.Container Nat Unit)) [] [] (by decide)
    ⟨pre, c, post, hl, hpost⟩⟩

/-- C12: when `convertEnvFromToEnvs` succeeds on the directive lists `a` and
`b`, it succeeds on `a ++ b` and returns the bindings of `a` followed by the
bindings of `b`: the block of a directive is never mixed with the next one. -/
theorem convertEnvFromToEnvs_append (a b : List EnvFromSource)
    (cms : List spec.ConfigMapMod) (secrets : List spec.SecretMod)
    (ha : (convertEnvFromToEnvs a cms secrets).2 = none)
    (hb : (convertEnvFromToEnvs b cms secrets).2 = none) :
    convertEnvFromToEnvs (a ++ b) cms secrets =
      ((convertEnvFromToEnvs a cms secrets).1 ++ (convertEnvFromToEnvs b cms secrets).1,
        none) := by
  unfold convertEnvFromToEnvs at ha hb ⊢
  rcases hra : convertEnvFromToEnvs.loop cms secrets 0 a [] with ⟨ra, ea⟩
  rcases hrb : convertEnvFromToEnvs.loop cms secrets 0 b [] with ⟨rb, eb⟩
  rw [hra] at ha
  rw [hrb] at hb
  simp only at ha hb
  subst ha hb
  obtain ⟨rb', hrb', hshape⟩ := loop_ok_shape cms secrets b 0 [] rb hrb
  rw [loop_append_ok cms secrets a b 0 [] ra hra, hshape]
  simp [hrb']

/-- Witness for C12: the directive for `one` (keys `z, y`) followed by the
directive for `two` (key `a`) gives `y, z, a`. -/
theorem convertEnvFromToEnvs_append_witness :
    convertEnvFromToEnvs
        ([{ ConfigMapRef := some { Name := "one" } }] ++
          [{ ConfigMapRef := some { Name := "two" } }])
        [{ Name := "one", Data := [("z", "1"), ("y", "2")] },
          { Name := "two", Data := [("a", "3")] }] [] =
      ((convertEnvFromToEnvs [{ ConfigMapRef := some { Name := "one" } }]
          [{ Name := "one", Data := [("z", "1"), ("y", "2")] },
            { Name := "two", Data := [("a", "3")] }] []).1 ++
        (convertEnvFromToEnvs [{ ConfigMapRef := some { Name := "two" } }]
          [{ Name := "one", Data := [("z", "1"), ("y", "2")] },
            { Name := "two", Data := [("a", "3")] }] []).1, none) ∧
    (convertEnvFromToEnvs
        ([{ ConfigMapRef := some { Name := "one" } }] ++
          [{ ConfigMapRef := some { Name := "two" } }])
        [{ Name := "one", Data := [("z", "1"), ("y", "2")] },
          { Name := "two", Data := [("a", "3")] }] []).1.map (fun b => b.Name) =
      ["y", "z", "a"] :=
  ⟨convertEnvFromToEnvs_append _ _ _ _ (by decide) (by decide), by decide⟩

/-- C13: a single directive that carries both a config-map reference and a
secret reference, both declared in the batch, expands into the sorted bindings
of the config map followed by the sorted bindings of the secret; the two blocks
are concatenated, not sorted together. -/
theorem convertEnvFromToEnvs_both_refs (cms : List spec.ConfigMapMod)
    (secrets : List spec.SecretMod) (e : EnvFromSource) (cref : ConfigMapEnvSource)
    (sref : SecretEnvSource) (cm : spec.ConfigMapMod) (s : spec.SecretMod)
    (hc : e.ConfigMapRef = some cref) (hs : e.SecretRef = some sref)
    (hfindc : cms.find? (fun x => decide (x.Name = cref.Name)) = some cm)
    (hfinds : secrets.find? (fun x => decide (x.Name = sref.Name)) = some s) :
    ∃ ck sk : List String,
      ck.Sorted (fun a b => a ≤ b) ∧ ck.Perm (cm.Data.map Prod.fst) ∧
      sk.Sorted (fun a b => a ≤ b) ∧
      sk.Perm (s.Data.map Prod.fst ++ s.StringData.map Prod.fst) ∧
      convertEnvFromToEnvs [e] cms secrets =
        (ck.map (fun key =>
          ({ Name := key, Value := "",
             ValueFrom := some
              { FieldRef := none, ResourceFieldRef := none,
                ConfigMapKeyRef := some { Name := cref.Name, Key := key, Optional := none },
                SecretKeyRef := none } } : EnvVar)) ++
         sk.map (fun key =>
          ({ Name := key, Value := "",
             ValueFrom := some
              { FieldRef := none, ResourceFieldRef := none, ConfigMapKeyRef := none,
                SecretKeyRef := some { Name := sref.Name, Key := key, Optional := none } } } :
            EnvVar)), none) := by
  refine ⟨sortStrings (cm.Data.map Prod.fst),
    sortStrings (s.Data.map Prod.fst ++ s.StringData.map Prod.fst),
    sortStrings_sorted _, sortStrings_perm _, sortStrings_sorted _, sortStrings_perm _, ?_⟩
  simp [convertEnvFromToEnvs, convertEnvFromToEnvs.loop,
    configMapRef_find cms 0 e [] cref cm hc hfindc,
    secretRef_find secrets 0 e _ sref s hs hfinds]

/-- Witness for C13: one directive referring to the config map `cm` (key `z`)
and the secret `s` (key `a`) gives `z, a`. -/
theorem convertEnvFromToEnvs_both_refs_witness :
    (∃ ck sk : List String,
      ck.Sorted (fun a b => a ≤ b) ∧ ck.Perm ["z"] ∧
      sk.Sorted (fun a b => a ≤ b) ∧ sk.Perm (["a"] ++ []) ∧
      convertEnvFromToEnvs
          [{ ConfigMapRef := some { Name := "cm" }, SecretRef := some { Name := "s" } }]
          [{ Name := "cm", Data := [("z", "1")] }] [{ Name := "s", Data := [("a", [2])] }] =
        (ck.map (fun key =>
          ({ Name := key, Value := "",
             ValueFrom := some
              { FieldRef := none, ResourceFieldRef := none,
                ConfigMapKeyRef := some { Name := "cm", Key := key, Optional := none },
                SecretKeyRef := none } } : EnvVar)) ++
         sk.map (fun key =>
          ({ Name := key, Value := "",
             ValueFrom := some
              { FieldRef := none, ResourceFieldRef := none, ConfigMapKeyRef := none,
                SecretKeyRef := some { Name := "s", Key := key, Optional := none } } } :
            EnvVar)), none)) ∧
    (convertEnvFromToEnvs
        [{ ConfigMapRef := some { Name := "cm" }, SecretRef := some { Name := "s" } }]
        [{ Name := "cm", Data := [("z", "1")] }] [{ Name := "s", Data := [("a", [2])] }]).1.map
      (fun b => b.Name) = ["z", "a"] :=
  ⟨convertEnvFromToEnvs_both_refs
      [{ Name := "cm", Data := [("z", "1")] }] [{ Name := "s", Data := [("a", [2])] }]
      { ConfigMapRef := some { Name := "cm" }, SecretRef := some { Name := "s" } }
      { Name := "cm" } { Name := "s" }
      { Name := "cm", Data := [("z", "1")] } { Name := "s", Data := [("a", [2])] }
      rfl rfl (by decide) (by decide),
    by decide⟩

/-- C14: the result of `convertEnvFromToEnvs` does not depend on the order in
which the maps are enumerated: if the config maps and secrets of two batches
agree name by name and their `Data` (and `StringData`) are permutations of one
another, bindings and error are the same, also when a secret key occurs in
both `Data` and `StringData`. -/
theorem convertEnvFromToEnvs_enumeration (envFrom : List EnvFromSource)
    (cms cms' : List spec.ConfigMapMod) (secrets secrets' : List spec.SecretMod)
    (hc : List.Forall₂ (fun a b : spec.ConfigMapMod =>
      a.Name = b.Name ∧ a.Data.Perm b.Data) cms cms')
    (hs : List.Forall₂ (fun a b : spec.SecretMod =>
      a.Name = b.Name ∧ a.Data.Perm b.Data ∧ a.StringData.Perm b.StringData)
      secrets secrets') :
    convertEnvFromToEnvs envFrom cms secrets = convertEnvFromToEnvs envFrom cms' secrets' := by
  unfold convertEnvFromToEnvs
  exact loop_congr cms cms' secrets secrets'
    (searchConfigMap_forall₂ cms cms' (hc.imp fun a b hab => ⟨hab.1, hab.2.map _⟩))
    (getSecretDataKeys_forall₂ secrets secrets'
      (hs.imp fun a b hab => ⟨hab.1, hab.2.1.map _, hab.2.2.map _⟩)) envFrom 0 []

/-- Witness for C14: the same config map and secret enumerated in two orders,
the secret key `p` being in both `Data` and `StringData`. -/
theorem convertEnvFromToEnvs_enumeration_witness :
    convertEnvFromToEnvs
        [{ ConfigMapRef := some { Name := "cm" }, SecretRef := some { Name := "s" } }]
        [{ Name := "cm", Data := [("b", "1"), ("a", "2")] }]
        [{ Name := "s", Data := [("p", [1])], StringData := [("p", "x"), ("q", "y")] }] =
      convertEnvFromToEnvs
        [{ ConfigMapRef := some { Name := "cm" }, SecretRef := some { Name := "s" } }]
        [{ Name := "cm", Data := [("a", "2"), ("b", "1")] }]
        [{ Name := "s", Data := [("p", [1])], StringData := [("q", "y"), ("p", "x")] }] :=
  convertEnvFromToEnvs_enumeration _ _ _ _ _
    (List.Forall₂.cons ⟨rfl, by decide⟩ List.Forall₂.nil)
    (List.Forall₂.cons ⟨rfl, by decide, by decide⟩ List.Forall₂.nil)

/-- C15: `convertEnvFromToEnvs` never reads a value: two batches whose config
maps and secrets agree name by name and key for key, with any values, give the
same result, bindings or error, for every directive list; and every binding
returned has an empty literal `Value`. -/
theorem convertEnvFromToEnvs_values (envFrom : List EnvFromSource)
    (cms cms' : List spec.ConfigMapMod) (secrets secrets' : List spec.SecretMod)
    (hc : List.Forall₂ (fun a b : spec.ConfigMapMod =>
      a.Name = b.Name ∧ (a.Data.map Prod.fst).Perm (b.Data.map Prod.fst)) cms cms')
    (hs : List.Forall₂ (fun a b : spec.SecretMod =>
      a.Name = b.Name ∧ (a.Data.map Prod.fst).Perm (b.Data.map Prod.fst) ∧
        (a.StringData.map Prod.fst).Perm (b.StringData.map Prod.fst)) secrets secrets') :
    convertEnvFromToEnvs envFrom cms secrets = convertEnvFromToEnvs envFrom cms' secrets' ∧
    ∀ b ∈ (convertEnvFromToEnvs envFrom cms secrets).1, b.Value = "" := by
  unfold convertEnvFromToEnvs
  exact ⟨loop_congr cms cms' secrets secrets' (searchConfigMap_forall₂ cms cms' hc)
      (getSecretDataKeys_forall₂ secrets secrets' hs) envFrom 0 [],
    loop_value cms secrets envFrom 0 [] (by simp)⟩

/-- Witness for C15: two batches with the same names and keys and different
values. -/
theorem convertEnvFromToEnvs_values_witness :
    convertEnvFromToEnvs
        [{ ConfigMapRef := some { Name := "cm" }, SecretRef := some { Name := "s" } }]
        [{ Name := "cm", Data := [("a", "1"), ("b", "2")] }]
        [{ Name := "s", Data := [("p", [1])], StringData := [("q", "y")] }] =
      convertEnvFromToEnvs
        [{ ConfigMapRef := some { Name := "cm" }, SecretRef := some { Name := "s" } }]
        [{ Name := "cm", Data := [("a", "other"), ("b", "values")] }]
        [{ Name := "s", Data := [("p", [7, 7])], StringData := [("q", "z")] }] ∧
    ∀ b ∈ (convertEnvFromToEnvs
        [{ ConfigMapRef := some { Name := "cm" }, SecretRef := some { Name := "s" } }]
        [{ Name := "cm", Data := [("a", "1"), ("b", "2")] }]
        [{ Name := "s", Data := [("p", [1])], StringData := [("q", "y")] }]).1,
      b.Value = "" :=
  convertEnvFromToEnvs_values _ _ _ _ _
    (List.Forall₂.cons ⟨rfl, by decide⟩ List.Forall₂.nil)
    (List.Forall₂.cons ⟨rfl, by decide, by decide⟩ List.Forall₂.nil)

/-- C16: when `convertEnvFromToEnvs` fails, the directives split at the first
one, `e`, with an unresolved reference (every reference before it is declared
in the batch), and the error carries the index `pre.length` of `e` and the
unresolved name: that of the config-map reference of `e` if it is unresolved,
and otherwise that of its secret reference. -/
theorem convertEnvFromToEnvs_error_first (envFrom : List EnvFromSource)
    (cms : List spec.ConfigMapMod) (secrets : List spec.SecretMod)
    (h : (convertEnvFromToEnvs envFrom cms secrets).2 ≠ none) :
    ∃ pre e post, envFrom = pre ++ e :: post ∧
      (∀ x ∈ pre,
        (∀ r, x.ConfigMapRef = some r → ∃ cm ∈ cms, cm.Name = r.Name) ∧
        (∀ r, x.SecretRef = some r → ∃ s ∈ secrets, s.Name = r.Name)) ∧
      ((∃ r, e.ConfigMapRef = some r ∧ (∀ cm ∈ cms, cm.Name ≠ r.Name) ∧
          (convertEnvFromToEnvs envFrom cms secrets).2 =
            some (GoError.wrapConfigMapRef (GoError.configMapNotFound r.Name) pre.length)) ∨
        ((∀ r, e.ConfigMapRef = some r → ∃ cm ∈ cms, cm.Name = r.Name) ∧
          ∃ r, e.SecretRef = some r ∧ (∀ s ∈ secrets, s.Name ≠ r.Name) ∧
            (convertEnvFromToEnvs envFrom cms secrets).2 =
              some (GoError.wrapSecretRef (GoError.secretNotFound r.Name) pre.length))) := by
  have hfirst := loop_error_first cms secrets envFrom 0 [] h
  simpa only [convertEnvFromToEnvs, Nat.zero_add] using hfirst

/-- Witness for C16: the second directive refers to the undeclared config map
`x` and the undeclared secret `y`; the error names index 1 and the config map. -/
theorem convertEnvFromToEnvs_error_first_witness :
    (convertEnvFromToEnvs
        [{ ConfigMapRef := some { Name := "cm" } },
          { ConfigMapRef := some { Name := "x" }, SecretRef := some { Name := "y" } },
          { SecretRef := some { Name := "w" } }]
        [{ Name := "cm", Data := [("k", "v")] }] []).2 =
      some (GoError.wrapConfigMapRef (GoError.configMapNotFound "x") 1) ∧
    ∃ pre e post,
      ([{ ConfigMapRef := some { Name := "cm" } },
          { ConfigMapRef := some { Name := "x" }, SecretRef := some { Name := "y" } },
          { SecretRef := some { Name := "w" } }] : List EnvFromSource) = pre ++ e :: post ∧
      ∀ x ∈ pre,
        (∀ r, x.ConfigMapRef = some r →
          ∃ cm ∈ [({ Name := "cm", Data := [("k", "v")] } : spec.ConfigMapMod)],
            cm.Name = r.Name) ∧
        (∀ r, x.SecretRef = some r → ∃ s ∈ ([] : List spec.SecretMod), s.Name = r.Name) :=
  ⟨by decide,
    let ⟨pre, e, post, hl, hpre, _⟩ := convertEnvFromToEnvs_error_first
      [{ ConfigMapRef := some { Name := "cm" } },
        { ConfigMapRef := some { Name := "x" }, SecretRef := some { Name := "y" } },
        { SecretRef := some { Name := "w" } }]
      [{ Name := "cm", Data := [("k", "v")] }] [] (by decide)
    ⟨pre, e, post, hl, hpre⟩⟩

/-- C17: when `populateContainers` succeeds, the returned list has the length
of the batch and, position by position, the fields of a returned container
other than `LivenessProbe`, `ReadinessProbe`, `Env` and `EnvFrom` are those of
the input container; the returned containers are native ones, which have no
`Health` field. -/
theorem populateContainers_frame {P R : Type} (containers : List (spec.Container P R))
    (cms : List spec.ConfigMapMod) (secrets : List spec.SecretMod)
    (h : (populateContainers containers cms secrets).2 = none) :
    (populateContainers containers cms secrets).1.length = containers.length ∧
    (populateContainers containers cms secrets).1.map (fun c => c.Rest) =
      containers.map (fun c => c.Rest) := by
  have hok := populateContainers_loop_ok cms secrets containers 0 []
  have hres := hok.2 h
  simp only [List.nil_append] at hres
  unfold populateContainers
  rw [hres]
  refine ⟨by simp, ?_⟩
  rw [List.map_map]
  refine List.map_congr_left fun c _ => ?_
  simp only [Function.comp]
  exact (populateEnvFrom_rest _ cms secrets).trans (populateProbes_fields c).2.2

/-- Witness for C17: two containers with remaining fields `10` and `20`, the
first with the unified probe and an import. -/
theorem populateContainers_frame_witness :
    (populateContainers
        ([{ Rest := 10, Health := some 1,
            EnvFrom := [{ ConfigMapRef := some { Name := "cm" } }] },
          { Rest := 20 }] : List (spec.Container Nat Nat))
        [{ Name := "cm", Data := [("k", "v")] }] []).1.length = 2 ∧
    (populateContainers
        ([{ Rest := 10, Health := some 1,
            EnvFrom := [{ ConfigMapRef := some { Name := "cm" } }] },
          { Rest := 20 }] : List (spec.Container Nat Nat))
        [{ Name := "cm", Data := [("k", "v")] }] []).1.map (fun c => c.Rest) = [10, 20] :=
  populateContainers_frame
    ([{ Rest := 10, Health := some 1,
        EnvFrom := [{ ConfigMapRef := some { Name := "cm" } }] },
      { Rest := 20 }] : List (spec.Container Nat Nat))
    [{ Name := "cm", Data := [("k", "v")] }] [] (by decide)

/-- C18: when the first failing container `c` of a batch stands at index
`pre.length`, `populateContainers` returns an error and, next to it, exactly
the populated native containers of the `pre.length` containers before `c`, in
order; that list is empty only when `c` is the first container. -/
theorem populateContainers_error_list {P R : Type} (pre post : List (spec.Container P R))
    (c : spec.Container P R) (cms : List spec.ConfigMapMod) (secrets : List spec.SecretMod)
    (hpre : ∀ x ∈ pre, (populateProbes x).2 = none ∧
      (populateEnvFrom (populateProbes x).1 cms secrets).2 = none)
    (hc : (populateProbes c).2 ≠ none ∨
      (populateEnvFrom (populateProbes c).1 cms secrets).2 ≠ none) :
    (populateContainers (pre ++ c :: post) cms secrets).2 ≠ none ∧
    (populateContainers (pre ++ c :: post) cms secrets).1 =
      pre.map (fun x => (populateEnvFrom (populateProbes x).1 cms secrets).1.toContainer) ∧
    ((populateContainers (pre ++ c :: post) cms secrets).1 = [] ↔ pre = []) := by
  have hsplit : populateContainers (pre ++ c :: post) cms secrets =
      populateContainers.loop cms secrets pre.length (c :: post)
        (pre.map (fun x => (populateEnvFrom (populateProbes x).1 cms secrets).1.toContainer)) := by
    simp [populateContainers, populateContainers_loop_append cms secrets pre _ 0 [] hpre]
  rw [hsplit]
  rcases hp : (populateProbes c).2 with _ | err1
  · have he := hc.resolve_left (by simp [hp])
    obtain ⟨err, herr⟩ := Option.ne_none_iff_exists'.mp he
    rw [(populateContainers_loop_at cms secrets c post _ _).2 err hp herr]
    simp
  · rw [(populateContainers_loop_at cms secrets c post _ _).1 err1 hp]
    simp

/-- Witness for C18: of three containers the second fails probe unification;
the list returned with the error is the native container of the first. -/
theorem populateContainers_error_list_witness :
    (populateContainers
        (([{ Rest := 10 }] : List (spec.Container Nat Nat)) ++
          { Rest := 20, Health := some 1, LivenessProbe := some 2 } :: [{ Rest := 30 }])
        [] []).2 ≠ none ∧
    (populateContainers
        (([{ Rest := 10 }] : List (spec.Container Nat Nat)) ++
          { Rest := 20, Health := some 1, LivenessProbe := some 2 } :: [{ Rest := 30 }])
        [] []).1 =
      ([{ Rest := 10 }] : List (spec.Container Nat Nat)).map
        (fun x => (populateEnvFrom (populateProbes x).1 [] []).1.toContainer) ∧
    ((populateContainers
        (([{ Rest := 10 }] : List (spec.Container Nat Nat)) ++
          { Rest := 20, Health := some 1, LivenessProbe := some 2 } :: [{ Rest := 30 }])
        [] []).1 = [] ↔ ([{ Rest := 10 }] : List (spec.Container Nat Nat)) = []) :=
  populateContainers_error_list [{ Rest := 10 }] [{ Rest := 30 }]
    { Rest := 20, Health := some 1, LivenessProbe := some 2 } [] []
    (by decide) (by decide)

/-- C19: of several config maps, or several secrets, with the same name only
the first in batch order counts: a lookup of the name of `cm` returns `cm`
when no earlier element has that name, and removing from the batch a later
element `d` with the name of an earlier one changes nothing in the result of
`convertEnvFromToEnvs`, for config maps and for secrets alike. -/
theorem convertEnvFromToEnvs_first_match (envFrom : List EnvFromSource)
    (cms cpre cmid cpost : List spec.ConfigMapMod) (cm d : spec.ConfigMapMod)
    (secrets spre smid spost : List spec.SecretMod) (s d' : spec.SecretMod)
    (hd : d.Name = cm.Name) (hd' : d'.Name = s.Name) :
    convertEnvFromToEnvs envFrom (cpre ++ cm :: (cmid ++ d :: cpost)) secrets =
      convertEnvFromToEnvs envFrom (cpre ++ cm :: (cmid ++ cpost)) secrets ∧
    convertEnvFromToEnvs envFrom cms (spre ++ s :: (smid ++ d' :: spost)) =
      convertEnvFromToEnvs envFrom cms (spre ++ s :: (smid ++ spost)) ∧
    ((∀ x ∈ cpre, x.Name ≠ cm.Name) →
      searchConfigMap (cpre ++ cm :: (cmid ++ d :: cpost)) cm.Name = (cm, none)) ∧
    ((∀ x ∈ spre, x.Name ≠ s.Name) →
      getSecretDataKeys (spre ++ s :: (smid ++ d' :: spost)) s.Name =
        (s.Data.map Prod.fst ++ s.StringData.map Prod.fst, none)) := by
  refine ⟨?_, ?_, ?_, ?_⟩
  · unfold convertEnvFromToEnvs
    exact loop_congr _ _ _ _
      (fun n => by rw [searchConfigMap_later cpre cmid cpost cm d hd n]; exact ⟨rfl, rfl⟩)
      (fun n => ⟨rfl, rfl⟩) envFrom 0 []
  · unfold convertEnvFromToEnvs
    exact loop_congr _ _ _ _ (fun n => ⟨rfl, rfl⟩)
      (fun n => by rw [getSecretDataKeys_later spre smid spost s d' hd' n]; exact ⟨rfl, rfl⟩)
      envFrom 0 []
  · intro hpre
    apply searchConfigMap_find
    rw [List.find?_append, List.find?_eq_none.mpr (by simpa using hpre)]
    simp
  · intro hpre
    apply getSecretDataKeys_find
    rw [List.find?_append, List.find?_eq_none.mpr (by simpa using hpre)]
    simp

/-- Witness for C19: two config maps named `cm` and two secrets named `s`; the
bindings are those of the first of each, `a` and `p`. -/
theorem convertEnvFromToEnvs_first_match_witness :
    convertEnvFromToEnvs [{ ConfigMapRef := some { Name := "cm" } }]
        ([] ++ { Name := "cm", Data := [("a", "1")] } ::
          ([] ++ { Name := "cm", Data := [("b", "2")] } :: [])) [] =
      convertEnvFromToEnvs [{ ConfigMapRef := some { Name := "cm" } }]
        ([] ++ { Name := "cm", Data := [("a", "1")] } :: ([] ++ [])) [] ∧
    convertEnvFromToEnvs [{ ConfigMapRef := some { Name := "cm" } }] []
        ([] ++ { Name := "s", Data := [("p", [1])] } ::
          ([] ++ { Name := "s", Data := [("q", [2])] } :: [])) =
      convertEnvFromToEnvs [{ ConfigMapRef := some { Name := "cm" } }] []
        ([] ++ { Name := "s", Data := [("p", [1])] } :: ([] ++ [])) ∧
    (convertEnvFromToEnvs
        [{ ConfigMapRef := some { Name := "cm" }, SecretRef := some { Name := "s" } }]
        [{ Name := "cm", Data := [("a", "1")] }, { Name := "cm", Data := [("b", "2")] }]
        [{ Name := "s", Data := [("p", [1])] }, { Name := "s", Data := [("q", [2])] }]).1.map
      (fun b => b.Name) = ["a", "p"] :=
  have h := convertEnvFromToEnvs_first_match [{ ConfigMapRef := some { Name := "cm" } }]
    [] [] [] [] { Name := "cm", Data := [("a", "1")] } { Name := "cm", Data := [("b", "2")] }
    [] [] [] [] { Name := "s", Data := [("p", [1])] } { Name := "s", Data := [("q", [2])] }
    rfl rfl
  ⟨h.1, h.2.1, by decide⟩

/-- C20: a directive `e` with neither a config-map reference nor a secret
reference is a no-op: inserted at any position of a directive list it changes
neither whether `convertEnvFromToEnvs` succeeds nor the bindings returned (and
not the error either when the failing directive comes before it); the empty
directive list gives no bindings, and `populateEnvFrom` then returns the
container with `Env` as declared. -/
theorem convertEnvFromToEnvs_no_ref {P R : Type} (a b : List EnvFromSource) (e : EnvFromSource)
    (cms : List spec.ConfigMapMod) (secrets : List spec.SecretMod)
    (hc : e.ConfigMapRef = none) (hs : e.SecretRef = none) :
    ((convertEnvFromToEnvs (a ++ e :: b) cms secrets).2 = none ↔
      (convertEnvFromToEnvs (a ++ b) cms secrets).2 = none) ∧
    (convertEnvFromToEnvs (a ++ e :: b) cms secrets).1 =
      (convertEnvFromToEnvs (a ++ b) cms secrets).1 ∧
    ((convertEnvFromToEnvs a cms secrets).2 ≠ none →
      convertEnvFromToEnvs (a ++ e :: b) cms secrets =
        convertEnvFromToEnvs (a ++ b) cms secrets) ∧
    convertEnvFromToEnvs [] cms secrets = ([], none) ∧
    ∀ c : spec.Container P R, c.EnvFrom = [] →
      populateEnvFrom c cms secrets = (c, none) ∧
      (populateEnvFrom c cms secrets).1.Env = c.Env := by
  have hnil : convertEnvFromToEnvs [] cms secrets = ([], none) := by
    simp [convertEnvFromToEnvs, convertEnvFromToEnvs.loop]
  have hpop : ∀ c : spec.Container P R, c.EnvFrom = [] →
      populateEnvFrom c cms secrets = (c, none) ∧
      (populateEnvFrom c cms secrets).1.Env = c.Env := by
    intro c hce
    obtain ⟨⟨envFrom, env, lp, rp, rest⟩, hh⟩ := c
    simp only at hce
    subst hce
    simp [populateEnvFrom, hnil]
  have herr : (convertEnvFromToEnvs a cms secrets).2 ≠ none →
      convertEnvFromToEnvs (a ++ e :: b) cms secrets =
        convertEnvFromToEnvs (a ++ b) cms secrets := by
    intro ha
    unfold convertEnvFromToEnvs at ha ⊢
    rw [loop_append_error cms secrets a _ 0 [] ha, loop_append_error cms secrets a _ 0 [] ha]
  rcases hra : convertEnvFromToEnvs.loop cms secrets 0 a [] with ⟨ra, _ | erra⟩
  · have hl : convertEnvFromToEnvs (a ++ e :: b) cms secrets =
        convertEnvFromToEnvs.loop cms secrets (0 + a.length + 1) b ra := by
      unfold convertEnvFromToEnvs
      rw [loop_append_ok cms secrets a _ 0 [] ra hra]
      simp [convertEnvFromToEnvs.loop, configMapRef_none cms _ e _ hc,
        secretRef_none secrets _ e _ hs]
    have hr : convertEnvFromToEnvs (a ++ b) cms secrets =
        convertEnvFromToEnvs.loop cms secrets (0 + a.length) b ra := by
      unfold convertEnvFromToEnvs
      rw [loop_append_ok cms secrets a _ 0 [] ra hra]
    refine ⟨?_, ?_, herr, hnil, hpop⟩
    · rw [hl, hr]
      rcases loop_shape cms secrets b with ⟨r, hshape⟩ | hshape
      · rw [hshape, hshape]
      · obtain ⟨e1, h1⟩ := hshape (0 + a.length + 1) ra
        obtain ⟨e2, h2⟩ := hshape (0 + a.length) ra
        rw [h1, h2]
        simp
    · rw [hl, hr]
      rcases loop_shape cms secrets b with ⟨r, hshape⟩ | hshape
      · rw [hshape, hshape]
      · obtain ⟨e1, h1⟩ := hshape (0 + a.length + 1) ra
        obtain ⟨e2, h2⟩ := hshape (0 + a.length) ra
        rw [h1, h2]
  · have ha : (convertEnvFromToEnvs a cms secrets).2 ≠ none := by
      simp [convertEnvFromToEnvs, hra]
    rw [herr ha]
    exact ⟨Iff.rfl, rfl, fun _ => rfl, hnil, hpop⟩

/-- Witness for C20: a directive with only a prefix, between two directives
that import `one` and `two`. -/
theorem convertEnvFromToEnvs_no_ref_witness :
    (convertEnvFromToEnvs
        ([{ ConfigMapRef := some { Name := "one" } }] ++ { Prefix := "P_" } ::
          [{ ConfigMapRef := some { Name := "two" } }])
        [{ Name := "one", Data := [("z", "1")] }, { Name := "two", Data := [("a", "3")] }]
        []).1 =
      (convertEnvFromToEnvs
        ([{ ConfigMapRef := some { Name := "one" } }] ++
          [{ ConfigMapRef := some { Name := "two" } }])
        [{ Name := "one", Data := [("z", "1")] }, { Name := "two", Data := [("a", "3")] }]
        []).1 ∧
    (convertEnvFromToEnvs
        ([{ ConfigMapRef := some { Name := "one" } }] ++ { Prefix := "P_" } ::
          [{ ConfigMapRef := some { Name := "two" } }])
        [{ Name := "one", Data := [("z", "1")] }, { Name := "two", Data := [("a", "3")] }]
        []).1.map (fun b => b.Name) = ["z", "a"] :=
  ⟨(@convertEnvFromToEnvs_no_ref Nat Unit [{ ConfigMapRef := some { Name := "one" } }]
      [{ ConfigMapRef := some { Name := "two" } }] { Prefix := "P_" }
      [{ Name := "one", Data := [("z", "1")] }, { Name := "two", Data := [("a", "3")] }] []
      rfl rfl).2.1, by decide⟩

end kubernetes
